import Mathlib

/-!
esajpip: channel session loop, chunk framing and file-manager root directory.

A shallow embedding of `ClientManager::Run` / `send_chunk`
(`src/client_manager.cc`) and of `FileManager::Init`
(`src/jpeg2000/file_manager.h`), followed by the properties established
about them.

Conventions of the embedding:

* the socket stream is the list of bytes written to it; a byte is its numeric
  value (`'0'` is 48, `'a'` is 97, `'\r'` is 13, `'\n'` is 10);
* the collaborators whose code is outside the two embedded files (request
  parsing, `OpenImage`, `DataBinServer`, the z-filter) are represented by what
  they answer: every loop iteration is an `Event` carrying the answers the
  collaborators give during that iteration, and the session records each call it
  makes in `Session.calls`;
* a loop that the source can spin in for ever takes a fuel argument and yields
  `none` when the fuel runs out.
-/

namespace Esajpip

/-! ## Bytes and the chunk framing of `send_chunk` -/

/-- One byte of a stream, as its numeric value. -/
abbrev Byte := Nat

/-- The bytes of an ASCII literal of the source (`"0"`, an error message). -/
def bytesOf (s : String) : List Byte := s.toList.map Char.toNat

/-- The constant `http::Protocol::CRLF`: carriage return, line feed. -/
def CRLF : List Byte := [13, 10]

/-- One lowercase hexadecimal digit as a byte: `'0'..'9'`, `'a'..'f'`. -/
def hexDigit (d : Nat) : Byte := if d < 10 then 48 + d else 87 + d

/-- Digits of `n` in base 16, most significant first, pushed in front of `acc`.
The first argument bounds the number of digits produced. -/
def hexAux : Nat → Nat → List Byte → List Byte
  | 0, _, acc => acc
  | fuel + 1, n, acc =>
    if n < 16 then hexDigit n :: acc
    else hexAux fuel (n / 16) (hexDigit (n % 16) :: acc)

/-- The text written by `strm << hex << len`: lowercase hexadecimal, no leading
zeros, no base marker. -/
def hex (n : Nat) : List Byte := hexAux (n + 1) n []

/-- The function `send_chunk(strm, buf, len)`: the bytes it appends to the stream.
`buf` stands for the `len` bytes at the pointer, so `len` is `buf.length`.
`Send` is taken to deliver all its bytes (the source ignores a short count). -/
def send_chunk (buf : List Byte) : List Byte :=
  if buf.length > 0 then hex buf.length ++ CRLF ++ buf ++ CRLF else []

/-- The bytes of `sock_stream << "0" << CRLF << CRLF` (line 244). -/
def terminator : List Byte := bytesOf "0" ++ CRLF ++ CRLF

/-! ## Unframing a chunked transfer (the receiving side, from the specification)

The specification speaks of the bytes obtained "when unframed": each transfer
unit is `<hex-length>\r\n<bytes>\r\n` and the transfer ends with the zero-length
unit `0\r\n\r\n`. The decoder below reads exactly that grammar and rejects
everything else. -/

/-- The value of a hexadecimal digit byte, `none` for any other byte. -/
def hexVal (b : Byte) : Option Nat :=
  if 48 ≤ b ∧ b ≤ 57 then some (b - 48)
  else if 97 ≤ b ∧ b ≤ 102 then some (b - 87)
  else if 65 ≤ b ∧ b ≤ 70 then some (b - 55)
  else none

/-- Reads hexadecimal digits as long as there are some, continuing the number
`acc`; returns the number and the unread input. -/
def readHexDigits : Nat → List Byte → Nat × List Byte
  | acc, [] => (acc, [])
  | acc, b :: bs =>
    match hexVal b with
    | some d => readHexDigits (acc * 16 + d) bs
    | none => (acc, b :: bs)

/-- Reads a hexadecimal number of at least one digit. -/
def readHexNumber : List Byte → Option (Nat × List Byte)
  | [] => none
  | b :: bs =>
    match hexVal b with
    | some d => some (readHexDigits d bs)
    | none => none

/-- Consumes a CRLF, or fails. -/
def stripCRLF : List Byte → Option (List Byte)
  | 13 :: 10 :: rest => some rest
  | _ => none

/-- Decodes at most `fuel` transfer units (the terminating one included) and
returns the concatenated payloads; `none` when the input is not a complete,
well-formed chunked transfer. -/
def unframeAux : Nat → List Byte → Option (List Byte)
  | 0, _ => none
  | fuel + 1, input =>
    match readHexNumber input with
    | none => none
    | some (n, rest) =>
      match stripCRLF rest with
      | none => none
      | some data =>
        if n = 0 then
          match stripCRLF data with
          | some [] => some []
          | _ => none
        else if data.length < n then none
        else
          match stripCRLF (data.drop n) with
          | none => none
          | some next => (unframeAux fuel next).map (fun tail => data.take n ++ tail)

/-- Unframes a whole chunked body. Every unit takes at least one byte, so the
length of the input bounds the number of units. -/
def unframe (input : List Byte) : Option (List Byte) := unframeAux input.length input

/-! ## `FileManager` (file_manager.h) -/

/-- The one data member of `FileManager` that `Init` and `root_dir` use. -/
structure FileManager where
  root_dir_ : String
  deriving DecidableEq, Repr

/-- The default constructor `FileManager()`. -/
def FileManager.new : FileManager := { root_dir_ := "./" }

/-- The method `FileManager::Init(root_dir)`: the returned flag and the object
afterwards. `root_dir_.at(root_dir_.size() - 1)` is the last character. -/
def FileManager.Init (fm : FileManager) (root_dir : String) : Bool × FileManager :=
  if root_dir.data.length = 0 then (false, fm)
  else
    let fm1 : FileManager := { fm with root_dir_ := root_dir }
    if fm1.root_dir_.data[fm1.root_dir_.data.length - 1]? ≠ some '/' then
      (true, { fm1 with root_dir_ := fm1.root_dir_ ++ "/" })
    else (true, fm1)

/-- The accessor `FileManager::root_dir()`. -/
def FileManager.root_dir (fm : FileManager) : String := fm.root_dir_

/-! ## Data of the session loop -/

/-- Modelled from the spec: the class `CacheModel` (jpip/cache_model.h, not among
the embedded files) is "the set of delivered data-bin identifiers
`{class, in-class-index}` each with bytes-delivered-so-far". -/
structure CacheModel where
  delivered : List ((Nat × Nat) × Nat)
  deriving DecidableEq, Repr

/-- Modelled from the spec: `CacheModel::Clear` (jpip/cache_model.h) "resets to
empty". -/
def CacheModel.Clear (_ : CacheModel) : CacheModel := { delivered := [] }

/-- Modelled from the spec: the name of an HTTP header (http/header.h is not among
the embedded files). The constructors are the factory functions of
`http::Header` that `client_manager.cc` uses; `named` is
`http::Header(name, value)` and any other header a client sends. Comparing a
received header with `http::Header::ContentLength()` is comparing names. -/
inductive HeaderName where
  | AccessControlAllowOrigin
  | AccessControlExposeHeaders
  | StrictTransportSecurity
  | CacheControl
  | TransferEncoding
  | ContentType
  | ContentEncoding
  | ContentLength
  | AcceptEncoding
  | named (name : String)
  deriving DecidableEq, Repr

/-- An HTTP header: name and value. -/
structure Header where
  name : HeaderName
  value : String
  deriving DecidableEq, Repr

/-- The fields of `jpip::Request` that `ClientManager::Run` reads: the mask bits
`req.mask.items.*`, the entries of `req.parameters` it looks up, `req.object`
and `req.cache_model`. -/
structure Request where
  cclose : Bool
  cnew : Bool
  cid : Bool
  metareq : Bool
  target : Bool
  param_cclose : String
  param_cid : String
  param_target : String
  object : String
  cache_model : CacheModel
  deriving DecidableEq, Repr

/-- The outcome of one `data_server.GenerateChunk(file_manager, buf, &chunk_len,
&last)`: `fail` when it returns false, otherwise the `chunk_len` bytes it left
in `buf` and the flag `last`. -/
inductive GenResult where
  | fail
  | ok (chunk : List Byte) (last : Bool)
  deriving DecidableEq, Repr

/-- A call the session makes on a collaborator, with the answer it received. -/
inductive Call where
  | cacheClear
  | openImage (file_name : String) (ok : Bool)
  | reset
  | setRequest (ok : Bool)
  | generateChunk (result : GenResult)
  deriving DecidableEq, Repr

/-- What the environment presents during one iteration of the `while (!pclose)`
loop: the value `WaitForInput` returns, the request as left in `req` by
`getline` + `Request::Parse` (+ `ParseParameters` for a POST body), `none` when
either fails, the headers read by `sock_stream >> header`, and the answers of
`OpenImage`, `SetRequest` and of the successive `GenerateChunk` calls should the
iteration make them. -/
structure Event where
  wait : Nat
  parsed : Option Request
  headers : List Header
  openImage : Bool
  setRequest : Bool
  chunks : List GenResult
  deriving DecidableEq, Repr

/-- The configuration values and connection data read by `Run`:
`cfg.com_time_out()`, `cfg.max_chunk_size()` (the local `buf_len`) and
`to_string(client_info->base_id())` (the local `channel`). -/
structure Config where
  com_time_out : Nat
  buf_len : Nat
  channel : String
  deriving DecidableEq, Repr

/-- The z-filter (z/zfilter.h is not among the embedded files) as the session
uses it: `zfilter_new`, `zfilter_write` and `zfilter_bytes`. -/
structure ZFilter where
  State : Type
  new : State
  write : State → List Byte → State
  bytes : State → List Byte

/-- The locals of `Run` that live across iterations, and the record of the calls
made on collaborators, most recent first. -/
structure Session where
  pclose : Bool
  is_opened : Bool
  send_data : Bool
  req : Request
  calls : List Call
  deriving DecidableEq, Repr

/-- What is written to `sock_stream`. -/
inductive Out where
  | response (code : Nat)
  | header (h : Header)
  | crlf
  deriving DecidableEq, Repr

/-- What one iteration writes: the status line and headers up to the blank line
(`head`) and the bytes sent after it (`body`). -/
structure CycleOut where
  head : List Out
  body : List Byte
  deriving DecidableEq, Repr

/-- The literal `CORS`. -/
def CORS : String := "*"
/-- The literal `NOCACHE`. -/
def NOCACHE : String := "no-cache"
/-- The literal `STS`. -/
def STS : String := "max-age=31536000; includeSubDomains;"

/-- The stringstream `head_data` (lines 47-51). -/
def head_data : List Out :=
  [ .header ⟨.AccessControlAllowOrigin, CORS⟩,
    .header ⟨.StrictTransportSecurity, STS⟩,
    .header ⟨.CacheControl, NOCACHE⟩,
    .header ⟨.TransferEncoding, "chunked"⟩,
    .header ⟨.ContentType, "image/jpp-stream"⟩ ]

/-- The stringstream `head_data_gzip` (line 52). -/
def head_data_gzip : List Out := head_data ++ [ .header ⟨.ContentEncoding, "gzip"⟩ ]

/-! ## Reading the request headers (lines 89-98) -/

/-- The test `value.find(pat) != string::npos`: `pat` occurs in `value`. -/
def findSub (pat : List Char) : List Char → Bool
  | [] => pat.isPrefixOf []
  | c :: cs => pat.isPrefixOf (c :: cs) || findSub pat cs

/-- One pass of the header loop body on the flag `accept_gzip`. The branch on
`Content-Length` comes first; the `content_length` it sets is only used to read
a POST body, which `Event.parsed` already accounts for. -/
def scanHeader (accept_gzip : Bool) (header : Header) : Bool :=
  if header.name = .ContentLength then accept_gzip
  else if header.name = .AcceptEncoding ∧ findSub "gzip".toList header.value.toList then true
  else accept_gzip

/-- The value of `accept_gzip` after the header loop; it starts from `false` in
every iteration of the session loop (line 62). -/
def scanHeaders (headers : List Header) : Bool := headers.foldl scanHeader false

/-! ## Dispatch on the channel directive (lines 112-186) -/

/-- The locals after the dispatch: the session, `err_msg`, and what was written. -/
structure Dispatch where
  st : Session
  err_msg : String
  head : List Out
  deriving DecidableEq, Repr

/-- The response to a successful channel close (lines 132-137). -/
def closeHead : List Out :=
  [ .response 200,
    .header ⟨.AccessControlAllowOrigin, CORS⟩,
    .header ⟨.StrictTransportSecurity, STS⟩,
    .header ⟨.CacheControl, NOCACHE⟩,
    .header ⟨.ContentLength, "0"⟩,
    .crlf ]

/-- The head of the response that opens a channel (lines 156-161). -/
def cnewHead (channel file_name : String) (send_gzip : Bool) : List Out :=
  [ .response 200,
    .header ⟨.named "JPIP-cnew", "cid=" ++ channel ++ ",path=jpip,transport=http"⟩,
    .header ⟨.named "JPIP-tid", file_name⟩,
    .header ⟨.AccessControlExposeHeaders, "JPIP-cnew,JPIP-tid"⟩ ]
  ++ (if send_gzip then head_data_gzip else head_data) ++ [ .crlf ]

/-- The head of a data response on an existing channel (lines 177-179). -/
def cidHead (send_gzip : Bool) : List Out :=
  [ .response 200 ] ++ (if send_gzip then head_data_gzip else head_data) ++ [ .crlf ]

/-- Lines 112-186 of `Run`: from `err_msg = ""; pclose = true; send_data = false`
through the `if (cclose) … else if (cnew) … else if (cid) … else …` chain.
`st` already holds the parsed request in `st.req`. -/
def dispatch (cfg : Config) (ev : Event) (send_gzip : Bool) (st0 : Session) : Dispatch :=
  let st : Session := { st0 with pclose := true, send_data := false }
  let req := st.req
  if req.cclose then
    if !st.is_opened then
      ⟨st, "Close request received but there is not any channel opened", []⟩
    else if req.param_cclose != "*" && req.param_cclose != cfg.channel then
      ⟨st, "Close request received related to another channel", []⟩
    else
      ⟨{ st with pclose := false, is_opened := false,
                 req := { req with cache_model := req.cache_model.Clear },
                 calls := .cacheClear :: st.calls }, "", closeHead⟩
  else if req.cnew then
    if st.is_opened then
      ⟨st, "There already is a channel opened. Only one channel per client is supported", []⟩
    else
      let file_name := if req.target then req.param_target else req.object
      let st1 : Session := { st with calls := .openImage file_name ev.openImage :: st.calls }
      if !ev.openImage then ⟨st1, "", []⟩
      else
        let st2 : Session :=
          { st1 with is_opened := true,
                     calls := .setRequest ev.setRequest :: .reset :: st1.calls }
        if !ev.setRequest then ⟨st2, "", []⟩
        else ⟨{ st2 with send_data := true }, "", cnewHead cfg.channel file_name send_gzip⟩
  else if req.cid then
    if !st.is_opened then
      ⟨st, "Request received but no channel is opened", []⟩
    else if req.param_cid != cfg.channel then
      ⟨st, "Request related to another channel", []⟩
    else
      let st1 : Session := { st with calls := .setRequest ev.setRequest :: st.calls }
      if !ev.setRequest then ⟨st1, "", []⟩
      else ⟨{ st1 with send_data := true }, "", cidHead send_gzip⟩
  else
    ⟨st, "Invalid request (channel parameter not found)", []⟩

/-! ## Sending the response (lines 188-245) -/

/-- The failure response (lines 191-201) for the message `err_msg`. -/
def failureOut (err_msg : String) : CycleOut :=
  let err_msg_len := (bytesOf err_msg).length
  { head := [ .response 500,
              .header ⟨.AccessControlAllowOrigin, CORS⟩,
              .header ⟨.StrictTransportSecurity, STS⟩,
              .header ⟨.CacheControl, NOCACHE⟩,
              .header ⟨.ContentLength, toString err_msg_len⟩,
              .crlf ],
    body := if err_msg_len > 0 then bytesOf err_msg else [] }

/-- The outcome of a chunk loop: the arguments of the successive `send_chunk`
(or `zfilter_write`) calls, the flag `pclose` on leaving the loop, and the
`GenerateChunk` calls made, most recent first. -/
structure LoopOut where
  sent : List (List Byte)
  pclose : Bool
  calls : List Call
  deriving DecidableEq, Repr

/-- The loop `for (bool last = false; !last;)` of lines 204-213 and 217-228: it
calls `GenerateChunk` until `last` is set or a call fails (`pclose = true;
break`). `none` when the loop asks for more answers than the event provides. -/
def chunkLoop : List GenResult → Option LoopOut
  | [] => none
  | .fail :: _ => some ⟨[], true, [.generateChunk .fail]⟩
  | .ok chunk last :: rest =>
    if last then some ⟨[chunk], false, [.generateChunk (.ok chunk last)]⟩
    else (chunkLoop rest).map fun r =>
      ⟨chunk :: r.sent, r.pclose, r.calls ++ [.generateChunk (.ok chunk last)]⟩

/-- Lines 230-239: the compressed bytes `out` (of length `nbytes`) are cut into
pieces of `buf_len`; the result lists the arguments of the successive
`send_chunk` calls. The first argument bounds the iterations of
`while (nbytes > buf_len)`. -/
def resplit (buf_len : Nat) : Nat → List Byte → Option (List (List Byte))
  | fuel, out =>
    if out.length > buf_len then
      match fuel with
      | 0 => none
      | fuel + 1 => (resplit buf_len fuel (out.drop buf_len)).map (out.take buf_len :: ·)
    else if out.length > 0 then some [out]
    else some []

/-- The bytes that a sequence of `send_chunk` calls writes. -/
def sendAll (pieces : List (List Byte)) : List Byte := (pieces.map send_chunk).flatten

/-- The compressor state after lines 215-228: `zfilter_write` is called for the
chunks with `chunk_len > 0`. -/
def zfilterFeed (Z : ZFilter) (chunks : List (List Byte)) : Z.State :=
  (chunks.filter (fun c => c.length > 0)).foldl Z.write Z.new

/-- The data phase, lines 203-244: what is written after the response head,
the flag `pclose` afterwards and the `GenerateChunk` calls made. -/
def sendData (Z : ZFilter) (cfg : Config) (fuel : Nat) (send_gzip : Bool)
    (chunks : List GenResult) : Option (List Byte × Bool × List Call) :=
  match chunkLoop chunks with
  | none => none
  | some r =>
    if !send_gzip then some (sendAll r.sent ++ terminator, r.pclose, r.calls)
    else
      match resplit cfg.buf_len fuel (Z.bytes (zfilterFeed Z r.sent)) with
      | none => none
      | some pieces => some (sendAll pieces ++ terminator, r.pclose, r.calls)

/-- One iteration of the session loop from line 112 on, for the request in
`st.req` and the headers already read. -/
def respond (Z : ZFilter) (cfg : Config) (fuel : Nat) (ev : Event) (st : Session) :
    Option (Session × CycleOut) :=
  let accept_gzip := scanHeaders ev.headers
  let send_gzip := st.req.metareq && accept_gzip
  let d := dispatch cfg ev send_gzip st
  let pclose := d.st.pclose && !d.st.send_data
  if pclose then
    some ({ d.st with pclose := pclose }, failureOut d.err_msg)
  else if d.st.send_data then
    match sendData Z cfg fuel send_gzip ev.chunks with
    | none => none
    | some (body, pclose1, calls) =>
      some ({ d.st with pclose := pclose1, calls := calls ++ d.st.calls }, ⟨d.head, body⟩)
  else
    some ({ d.st with pclose := pclose }, ⟨d.head, []⟩)

/-- The result of running the session loop: the locals on leaving it, what each
iteration wrote, and the events that were never looked at. -/
structure RunOut where
  st : Session
  outs : List CycleOut
  unread : List Event
  deriving DecidableEq, Repr

/-- The loop `while (!pclose)` of `ClientManager::Run` (lines 61-246), which is
all of `Run` once `file_manager.Init` has succeeded and the locals are set up.
It is left when `pclose` is set, on a communication time-out (`break`, line 71),
when no request can be read or parsed (`break`, line 84), and when the client
sends nothing more. -/
def Run (Z : ZFilter) (cfg : Config) (fuel : Nat) : Session → List Event → Option RunOut
  | st, [] => some ⟨st, [], []⟩
  | st, ev :: rest =>
    if st.pclose then some ⟨st, [], ev :: rest⟩
    else if cfg.com_time_out > 0 ∧ ev.wait = 0 then some ⟨st, [], rest⟩
    else
      match ev.parsed with
      | none => some ⟨st, [], rest⟩
      | some req =>
        match respond Z cfg fuel ev { st with req := req } with
        | none => none
        | some (st1, out) =>
          (Run Z cfg fuel st1 rest).map fun r => ⟨r.st, out :: r.outs, r.unread⟩

/-- The locals of `Run` before the loop (lines 34-37): no channel is open. -/
def Session.init (req : Request) : Session :=
  { pclose := false, is_opened := false, send_data := false, req := req, calls := [] }

/-! ## Definitions used by the statements -/

/-- The record of the `GenerateChunk` calls that returned the chunks `cs` without
the `last` flag, most recent first. -/
def moreCalls (cs : List (List Byte)) : List Call :=
  (cs.map (fun c => Call.generateChunk (.ok c false))).reverse

/-- A z-filter that stores its input unchanged, used to instantiate the
statements about the gzip path. -/
def ZFilter.store : ZFilter :=
  { State := List Byte, new := [], write := fun s b => s ++ b, bytes := fun s => s }

/-- The file name of a channel-new request (line 144). -/
def fileNameOf (req : Request) : String := if req.target then req.param_target else req.object

/-- A request with no directive and empty parameters. -/
def Request.blank : Request :=
  { cclose := false, cnew := false, cid := false, metareq := false, target := false,
    param_cclose := "", param_cid := "", param_target := "", object := "",
    cache_model := { delivered := [((0, 0), 10)] } }

/-- The request `cclose=*`. -/
def Request.closeAll : Request := { Request.blank with cclose := true, param_cclose := "*" }

/-- The request `cnew=http` for the image `a.jp2`. -/
def Request.newChannel : Request := { Request.blank with cnew := true, object := "a.jp2" }

/-- The request `cid=<id>`. -/
def Request.onChannel (id : String) : Request :=
  { Request.blank with cid := true, param_cid := id }

/-- An iteration in which input arrives, `r` is parsed, the client sends the
headers `hs`, `OpenImage` answers `o`, `SetRequest` answers `s` and the
`GenerateChunk` calls answer `g`. -/
def Event.of (r : Request) (hs : List Header) (o s : Bool) (g : List GenResult) : Event :=
  { wait := 1, parsed := some r, headers := hs, openImage := o, setRequest := s, chunks := g }

/-- A configuration: time-out 5 s, buffer of 4 bytes, channel id `7`. -/
def Config.sample : Config := { com_time_out := 5, buf_len := 4, channel := "7" }

/-- A session in which the channel is open. -/
def Session.opened (req : Request) : Session := { Session.init req with is_opened := true }

/-- The number of channels open after the recorded calls (most recent first): a
successful `OpenImage` opens one (`is_opened = true` follows it), the
`cache_model.Clear()` of a close gives one up. -/
def channelsOpen : List Call → Nat
  | [] => 0
  | .openImage _ true :: older => channelsOpen older + 1
  | .cacheClear :: older => channelsOpen older - 1
  | _ :: older => channelsOpen older

/-- The head of the failure response for a body of `n` bytes (lines 192-197). -/
def failureHead (n : Nat) : List Out :=
  [ .response 500,
    .header ⟨.AccessControlAllowOrigin, "*"⟩,
    .header ⟨.StrictTransportSecurity, "max-age=31536000; includeSubDomains;"⟩,
    .header ⟨.CacheControl, "no-cache"⟩,
    .header ⟨.ContentLength, toString n⟩,
    .crlf ]

/-! ## Lemmas on the hexadecimal length line -/

theorem hexVal_hexDigit (d : Nat) (h : d < 16) : hexVal (hexDigit d) = some d := by
  unfold hexVal hexDigit
  by_cases h10 : d < 10
  · have h1 : 48 ≤ 48 + d ∧ 48 + d ≤ 57 := by omega
    simp only [h10, if_true, h1, and_self]
    congr 1
    omega
  · have h1 : ¬ (48 ≤ 87 + d ∧ 87 + d ≤ 57) := by omega
    have h2 : 97 ≤ 87 + d ∧ 87 + d ≤ 102 := by omega
    simp only [h10, if_false, h1, h2, and_self, if_true]
    congr 1
    omega

theorem hexVal_cr : hexVal 13 = none := by decide

theorem readHexNumber_hexAux (fuel : Nat) :
    ∀ (n : Nat) (acc tail : List Byte), n < fuel →
      readHexNumber (hexAux fuel n acc ++ tail) = some (readHexDigits n (acc ++ tail)) := by
  induction fuel with
  | zero => intro n acc tail h; omega
  | succ fuel ih =>
    intro n acc tail h
    unfold hexAux
    by_cases h16 : n < 16
    · simp only [h16, if_true, List.cons_append, readHexNumber, hexVal_hexDigit n h16]
    · have hlt : n / 16 < fuel := by omega
      have hmod : n % 16 < 16 := Nat.mod_lt _ (by decide)
      simp only [h16, if_false]
      rw [ih (n / 16) _ tail hlt]
      simp only [List.cons_append, readHexDigits, hexVal_hexDigit _ hmod]
      congr 2
      omega

theorem readHexNumber_hex (n : Nat) (tail : List Byte) :
    readHexNumber (hex n ++ CRLF ++ tail) = some (n, CRLF ++ tail) := by
  unfold hex
  rw [List.append_assoc, readHexNumber_hexAux (n + 1) n [] (CRLF ++ tail) (by omega)]
  simp [CRLF, readHexDigits, hexVal_cr]

theorem stripCRLF_CRLF (tail : List Byte) : stripCRLF (CRLF ++ tail) = some tail := by
  simp [CRLF, stripCRLF]

/-- Decoding one framed unit followed by more input. -/
theorem unframeAux_send_chunk (fuel : Nat) (buf tail : List Byte) (h : buf ≠ []) :
    unframeAux (fuel + 1) (send_chunk buf ++ tail)
      = (unframeAux fuel tail).map (fun t => buf ++ t) := by
  have hlen : 0 < buf.length := List.length_pos.mpr h
  have hne : buf.length ≠ 0 := by omega
  unfold send_chunk
  rw [unframeAux]
  simp only [gt_iff_lt, hlen, if_true, List.append_assoc]
  have := readHexNumber_hex buf.length (buf ++ (CRLF ++ tail))
  simp only [List.append_assoc] at this
  rw [this]
  simp only [stripCRLF_CRLF, hne, if_false, List.length_append]
  have h2 : ¬ (buf.length + ((CRLF : List Byte).length + tail.length) < buf.length) := by omega
  simp only [h2, if_false, List.drop_left, stripCRLF_CRLF, List.take_left]

theorem unframeAux_terminator (fuel : Nat) : unframeAux (fuel + 1) terminator = some [] := by
  cases fuel <;> rfl

/-- The pieces that produce bytes: `send_chunk` writes nothing for an empty one. -/
theorem sendAll_filter (pieces : List (List Byte)) :
    sendAll (pieces.filter (fun c => c.length > 0)) = sendAll pieces := by
  induction pieces with
  | nil => rfl
  | cons c cs ih =>
    by_cases hc : c.length > 0
    · simp only [sendAll, List.filter_cons, hc, decide_True, if_true, List.map_cons,
        List.flatten_cons] at ih ⊢
      rw [ih]
    · have h0 : send_chunk c = [] := by simp [send_chunk, hc]
      simp only [sendAll, List.filter_cons, hc, decide_False, List.map_cons,
        List.flatten_cons, h0, List.nil_append] at ih ⊢
      simpa using ih

theorem sendAll_cons (c : List Byte) (cs : List (List Byte)) :
    sendAll (c :: cs) = send_chunk c ++ sendAll cs := by
  simp [sendAll]

/-- Decoding a framed sequence of pieces followed by the terminator, with fuel for
every piece and the terminator. -/
theorem unframeAux_sendAll (pieces : List (List Byte)) :
    ∀ fuel, pieces.length < fuel →
      unframeAux fuel (sendAll pieces ++ terminator) = some pieces.flatten := by
  induction pieces with
  | nil =>
    intro fuel h
    obtain ⟨f, rfl⟩ : ∃ f, fuel = f + 1 := ⟨fuel - 1, by simp at h; omega⟩
    simpa [sendAll] using unframeAux_terminator f
  | cons c cs ih =>
    intro fuel h
    obtain ⟨f, rfl⟩ : ∃ f, fuel = f + 1 := ⟨fuel - 1, by simp at h; omega⟩
    have hf : cs.length < f := by simp at h; omega
    by_cases hc : c = []
    · subst hc
      have h0 : send_chunk [] = [] := by simp [send_chunk]
      rw [sendAll_cons, h0, List.nil_append, List.flatten_cons, List.nil_append]
      exact ih (f + 1) (by omega)
    · rw [sendAll_cons, List.append_assoc, unframeAux_send_chunk f c _ hc, ih f hf]
      simp

theorem filter_length_lt_sendAll (ps : List (List Byte)) :
    (ps.filter (fun c => c.length > 0)).length < (sendAll ps ++ terminator).length := by
  have key : ∀ qs : List (List Byte), (qs.filter (fun c => c.length > 0)).length
      ≤ (sendAll qs).length := by
    intro qs
    induction qs with
    | nil => simp [sendAll]
    | cons c cs ih =>
      rw [sendAll_cons, List.length_append]
      by_cases hc : c.length > 0
      · have : 1 ≤ (send_chunk c).length := by
          simp only [send_chunk, hc, if_true, List.length_append, CRLF, List.length_cons,
            List.length_nil]
          omega
        simp only [List.filter_cons, hc, decide_True, if_true, List.length_cons]
        omega
      · simp only [List.filter_cons, hc, decide_False, Bool.false_eq_true, if_false]
        omega
  have ht : (terminator : List Byte).length = 5 := by decide
  rw [List.length_append, ht]
  have := key ps
  omega

theorem flatten_filter_nonempty (ps : List (List Byte)) :
    (ps.filter (fun c => c.length > 0)).flatten = ps.flatten := by
  induction ps with
  | nil => rfl
  | cons c cs ih =>
    by_cases hc : c.length > 0
    · simp only [List.filter_cons, hc, decide_True, if_true, List.flatten_cons, ih]
    · have h0 : c = [] := by
        cases c with
        | nil => rfl
        | cons a l => simp at hc
      subst h0
      simpa using ih

/-- Unframing what a sequence of `send_chunk` calls and the terminator wrote gives
back the concatenation of the pieces. -/
theorem unframe_sendAll (ps : List (List Byte)) :
    unframe (sendAll ps ++ terminator) = some ps.flatten := by
  unfold unframe
  have h := unframeAux_sendAll (ps.filter (fun c => c.length > 0))
    (sendAll ps ++ terminator).length
  rw [sendAll_filter, flatten_filter_nonempty] at h
  exact h (filter_length_lt_sendAll ps)

/-- The bytes of `sendAll`, unit by unit: one `<hex-length>\r\n<bytes>\r\n` for
every non-empty piece, nothing for an empty one. -/
theorem sendAll_eq_units (ps : List (List Byte)) :
    sendAll ps = ((ps.filter (fun c => c ≠ [])).map
      (fun c => hex c.length ++ [13, 10] ++ c ++ [13, 10])).flatten := by
  induction ps with
  | nil => rfl
  | cons c cs ih =>
    rw [sendAll_cons, ih]
    cases c with
    | nil => simp [send_chunk]
    | cons a l => simp [send_chunk, CRLF]

/-! ## Lemmas on the chunk loop -/

theorem chunkLoop_complete (cs : List (List Byte)) (final : List Byte)
    (extra : List GenResult) :
    chunkLoop (cs.map (fun c => GenResult.ok c false) ++ GenResult.ok final true :: extra)
      = some ⟨cs ++ [final], false,
          Call.generateChunk (.ok final true) :: moreCalls cs⟩ := by
  induction cs with
  | nil => simp [chunkLoop, moreCalls]
  | cons c cs ih =>
    rw [List.map_cons, List.cons_append, chunkLoop]
    simp only [Bool.false_eq_true, if_false]
    rw [ih]
    simp [moreCalls]

/-- Once the dispatch has sent a data head, the iteration runs the data phase and
writes nothing else. -/
theorem respond_of_send_data (Z : ZFilter) (cfg : Config) (fuel : Nat) (ev : Event)
    (st : Session)
    (hdata : (dispatch cfg ev (st.req.metareq && scanHeaders ev.headers) st).st.send_data
      = true) :
    respond Z cfg fuel ev st
      = (sendData Z cfg fuel (st.req.metareq && scanHeaders ev.headers) ev.chunks).map
          fun r =>
            ({ (dispatch cfg ev (st.req.metareq && scanHeaders ev.headers) st).st with
                pclose := r.2.1,
                calls := r.2.2
                  ++ (dispatch cfg ev (st.req.metareq && scanHeaders ev.headers) st).st.calls },
             ⟨(dispatch cfg ev (st.req.metareq && scanHeaders ev.headers) st).head, r.1⟩) := by
  unfold respond
  simp only [hdata, Bool.not_true, Bool.and_false, Bool.false_eq_true, if_false, if_true]
  cases sendData Z cfg fuel (st.req.metareq && scanHeaders ev.headers) ev.chunks with
  | none => rfl
  | some r =>
    obtain ⟨body, pc, calls⟩ := r
    rfl

/-! ## C1: chunk framing round trip -/

/-- C1. Uncompressed data phase: when the `GenerateChunk` calls succeed and return
the chunks `cs` and then `final` with the `last` flag (any of them possibly empty),
the bytes written after the response head are one unit
`<lowercase hex length>\r\n<bytes>\r\n` per non-empty chunk, in order, followed by
the single terminator `0\r\n\r\n`; `pclose` stays false; unframing those bytes as
a chunked transfer gives exactly the concatenation of the chunks; an empty
chunk writes nothing; and these are the bytes that an iteration of `Run` writes
after the head whenever its dispatch reached the data phase without gzip. -/
theorem C1_chunk_framing_round_trip (Z : ZFilter) (cfg : Config) (fuel : Nat)
    (cs : List (List Byte)) (final : List Byte) (extra : List GenResult) :
    ∃ calls,
      sendData Z cfg fuel false
          (cs.map (fun c => GenResult.ok c false) ++ GenResult.ok final true :: extra)
        = some ((((cs ++ [final]).filter (fun c => c ≠ [])).map
              (fun c => hex c.length ++ [13, 10] ++ c ++ [13, 10])).flatten
              ++ [48, 13, 10, 13, 10], false, calls)
      ∧ unframe ((((cs ++ [final]).filter (fun c => c ≠ [])).map
              (fun c => hex c.length ++ [13, 10] ++ c ++ [13, 10])).flatten
              ++ [48, 13, 10, 13, 10]) = some (cs ++ [final]).flatten
      ∧ send_chunk [] = []
      ∧ ∀ (ev : Event) (st : Session),
          (dispatch cfg ev (st.req.metareq && scanHeaders ev.headers) st).st.send_data = true →
          (st.req.metareq && scanHeaders ev.headers) = false →
          ev.chunks
            = cs.map (fun c => GenResult.ok c false) ++ GenResult.ok final true :: extra →
          (respond Z cfg fuel ev st).map (fun r => r.2.body)
            = some ((((cs ++ [final]).filter (fun c => c ≠ [])).map
                (fun c => hex c.length ++ [13, 10] ++ c ++ [13, 10])).flatten
                ++ [48, 13, 10, 13, 10]) := by
  have hsd : sendData Z cfg fuel false
      (cs.map (fun c => GenResult.ok c false) ++ GenResult.ok final true :: extra)
      = some ((((cs ++ [final]).filter (fun c => c ≠ [])).map
              (fun c => hex c.length ++ [13, 10] ++ c ++ [13, 10])).flatten
              ++ [48, 13, 10, 13, 10], false,
              Call.generateChunk (.ok final true) :: moreCalls cs) := by
    simp only [sendData, chunkLoop_complete, Bool.not_false, if_true, sendAll_eq_units]
    rfl
  refine ⟨Call.generateChunk (.ok final true) :: moreCalls cs, hsd, ?_, rfl, ?_⟩
  · have h := unframe_sendAll (cs ++ [final])
    rw [sendAll_eq_units] at h
    exact h
  · intro ev st hdata hsg hchunks
    rw [respond_of_send_data Z cfg fuel ev st hdata, hsg, hchunks, hsd]
    rfl

/-- The statement C1 at a concrete input: a request on the open channel `7`
without `Accept-Encoding`, for which `GenerateChunk` returns `[1,2,3]`, `[]` and
finally `[4,5]`. -/
theorem C1_chunk_framing_round_trip_witness :
    (respond ZFilter.store Config.sample 0
        (Event.of (Request.onChannel "7") [] true true
          [.ok [1, 2, 3] false, .ok [] false, .ok [4, 5] true])
        (Session.opened (Request.onChannel "7"))).map (fun r => r.2.body)
      = some [51, 13, 10, 1, 2, 3, 13, 10, 50, 13, 10, 4, 5, 13, 10, 48, 13, 10, 13, 10] := by
  obtain ⟨_, _, _, _, h⟩ :=
    C1_chunk_framing_round_trip ZFilter.store Config.sample 0 [[1, 2, 3], []] [4, 5] []
  exact h (Event.of (Request.onChannel "7") [] true true
      [.ok [1, 2, 3] false, .ok [] false, .ok [4, 5] true])
    (Session.opened (Request.onChannel "7")) (by decide) (by decide) rfl

/-! ## Lemmas on the re-split loop -/

/-- With a positive buffer length the re-split loop ends within `out.length`
iterations; the pieces it sends are a partition of `out` into non-empty pieces
of at most `buf_len` bytes, all but the last of exactly `buf_len`. -/
theorem resplit_spec (buf_len : Nat) (hbuf : 0 < buf_len) (fuel : Nat) :
    ∀ out : List Byte, out.length ≤ fuel →
      ∃ pieces, resplit buf_len fuel out = some pieces
        ∧ pieces.flatten = out
        ∧ (∀ p ∈ pieces, 0 < p.length ∧ p.length ≤ buf_len)
        ∧ (∀ p ∈ pieces.dropLast, p.length = buf_len) := by
  induction fuel with
  | zero =>
    intro out h
    have h0 : out = [] := List.length_eq_zero.mp (by omega)
    subst h0
    refine ⟨[], ?_, rfl, by simp, by simp⟩
    unfold resplit
    simp
  | succ fuel ih =>
    intro out h
    by_cases hgt : out.length > buf_len
    · have hdrop : (out.drop buf_len).length ≤ fuel := by
        rw [List.length_drop]; omega
      obtain ⟨rest, hrest, hflat, hsize, hfull⟩ := ih (out.drop buf_len) hdrop
      have hne : rest ≠ [] := by
        intro hnil
        subst hnil
        have : (out.drop buf_len).length = 0 := by rw [← hflat]; rfl
        rw [List.length_drop] at this
        omega
      refine ⟨out.take buf_len :: rest, ?_, ?_, ?_, ?_⟩
      · rw [resplit]
        simp only [hgt, if_true, hrest, Option.map_some']
      · rw [List.flatten_cons, hflat, List.take_append_drop]
      · intro p hp
        rcases List.mem_cons.mp hp with rfl | hp
        · rw [List.length_take]
          omega
        · exact hsize p hp
      · intro p hp
        rw [List.dropLast_cons_of_ne_nil hne] at hp
        rcases List.mem_cons.mp hp with rfl | hp
        · rw [List.length_take]
          omega
        · exact hfull p hp
    · by_cases hpos : out.length > 0
      · refine ⟨[out], ?_, by simp, ?_, by simp⟩
        · rw [resplit]
          simp only [hgt, if_false, hpos, if_true]
        · intro p hp
          rw [List.mem_singleton] at hp
          subst hp
          omega
      · refine ⟨[], ?_, ?_, by simp, by simp⟩
        · rw [resplit]
          simp only [hgt, if_false, hpos]
        · have h0 : out = [] := List.length_eq_zero.mp (by omega)
          rw [h0]
          rfl

/-- C2. Gzip data phase with `buf_len > 0` (and fuel for the re-split loop): when
the `GenerateChunk` calls succeed and return the chunks `cs` and then `final` with
the `last` flag, the non-empty chunks are written in order to one z-filter, the
re-split loop terminates, and what is sent is one unit per piece followed by the
terminator, where the pieces concatenate to the bytes of that one compressed
stream, every piece is non-empty and at most `buf_len` long, and all but the last
are exactly `buf_len` long. Unframing the body gives the compressed stream, and
for any decompressor that inverts the z-filter, decompressing it gives what
unframing the uncompressed response gives: the concatenation of the chunks. These
are the bytes that an iteration of `Run` writes after the head whenever its
dispatch reached the data phase with gzip. -/
theorem C2_gzip_single_stream (Z : ZFilter) (cfg : Config) (fuel : Nat)
    (cs : List (List Byte)) (final : List Byte) (extra : List GenResult)
    (hbuf : 0 < cfg.buf_len)
    (hfuel : (Z.bytes (((cs ++ [final]).filter (fun c => c.length > 0)).foldl
        Z.write Z.new)).length ≤ fuel) :
    ∃ pieces calls plainBody plainCalls,
      resplit cfg.buf_len fuel
          (Z.bytes (((cs ++ [final]).filter (fun c => c.length > 0)).foldl Z.write Z.new))
        = some pieces
      ∧ sendData Z cfg fuel true
          (cs.map (fun c => GenResult.ok c false) ++ GenResult.ok final true :: extra)
        = some ((pieces.map (fun c => hex c.length ++ [13, 10] ++ c ++ [13, 10])).flatten
            ++ [48, 13, 10, 13, 10], false, calls)
      ∧ pieces.flatten
        = Z.bytes (((cs ++ [final]).filter (fun c => c.length > 0)).foldl Z.write Z.new)
      ∧ (∀ p ∈ pieces, 0 < p.length ∧ p.length ≤ cfg.buf_len)
      ∧ (∀ p ∈ pieces.dropLast, p.length = cfg.buf_len)
      ∧ unframe ((pieces.map (fun c => hex c.length ++ [13, 10] ++ c ++ [13, 10])).flatten
            ++ [48, 13, 10, 13, 10]) = some pieces.flatten
      ∧ sendData Z cfg fuel false
          (cs.map (fun c => GenResult.ok c false) ++ GenResult.ok final true :: extra)
        = some (plainBody, false, plainCalls)
      ∧ (∀ decompress : List Byte → List Byte,
          (∀ writes : List (List Byte),
            decompress (Z.bytes (writes.foldl Z.write Z.new)) = writes.flatten) →
          decompress pieces.flatten = (cs ++ [final]).flatten
          ∧ unframe plainBody = some (decompress pieces.flatten))
      ∧ ∀ (ev : Event) (st : Session),
          (dispatch cfg ev (st.req.metareq && scanHeaders ev.headers) st).st.send_data = true →
          (st.req.metareq && scanHeaders ev.headers) = true →
          ev.chunks
            = cs.map (fun c => GenResult.ok c false) ++ GenResult.ok final true :: extra →
          (respond Z cfg fuel ev st).map (fun r => r.2.body)
            = some ((pieces.map (fun c => hex c.length ++ [13, 10] ++ c ++ [13, 10])).flatten
                ++ [48, 13, 10, 13, 10]) := by
  obtain ⟨pieces, hres, hflat, hsize, hfull⟩ := resplit_spec cfg.buf_len hbuf fuel _ hfuel
  have hnonempty : pieces.filter (fun c => c ≠ []) = pieces := by
    rw [List.filter_eq_self]
    intro p hp
    have := (hsize p hp).1
    have hne : p ≠ [] := by
      intro h0
      rw [h0] at this
      simp at this
    simpa using hne
  have hunits : sendAll pieces
      = (pieces.map (fun c => hex c.length ++ [13, 10] ++ c ++ [13, 10])).flatten := by
    have h := sendAll_eq_units pieces
    rw [hnonempty] at h
    exact h
  have hterm : terminator = [48, 13, 10, 13, 10] := rfl
  have hsd : sendData Z cfg fuel true
      (cs.map (fun c => GenResult.ok c false) ++ GenResult.ok final true :: extra)
      = some ((pieces.map (fun c => hex c.length ++ [13, 10] ++ c ++ [13, 10])).flatten
          ++ [48, 13, 10, 13, 10], false,
          Call.generateChunk (.ok final true) :: moreCalls cs) := by
    simp only [sendData, chunkLoop_complete, Bool.not_true, Bool.false_eq_true, if_false,
      zfilterFeed, hres, hunits, hterm]
  refine ⟨pieces, Call.generateChunk (.ok final true) :: moreCalls cs,
    sendAll (cs ++ [final]) ++ terminator, Call.generateChunk (.ok final true) :: moreCalls cs,
    hres, hsd, hflat, hsize, hfull, ?_, ?_, ?_, ?_⟩
  · rw [← hunits, ← hterm]
    exact unframe_sendAll pieces
  · simp only [sendData, chunkLoop_complete, Bool.not_false, if_true]
  · intro decompress hinv
    have hd : decompress pieces.flatten = (cs ++ [final]).flatten := by
      rw [hflat, hinv, flatten_filter_nonempty]
    exact ⟨hd, by rw [hd]; exact unframe_sendAll _⟩
  · intro ev st hdata hsg hchunks
    rw [respond_of_send_data Z cfg fuel ev st hdata, hsg, hchunks, hsd]
    rfl

/-- The statement C2 at a concrete input: the storing z-filter, `buf_len = 2`, the
chunks `[1,2,3]`, `[]` and finally `[4,5]`. -/
theorem C2_gzip_single_stream_witness :
    0 < (Config.mk 0 2 "7").buf_len ∧
    ∃ (pieces : List (List Byte)) (calls : List Call),
      sendData ZFilter.store (Config.mk 0 2 "7") 5 true
          ([[1, 2, 3], []].map (fun c => GenResult.ok c false)
            ++ GenResult.ok [4, 5] true :: [])
        = some ((pieces.map (fun c => hex c.length ++ [13, 10] ++ c ++ [13, 10])).flatten
            ++ [48, 13, 10, 13, 10], false, calls)
      ∧ pieces.flatten = [1, 2, 3, 4, 5] := by
  refine ⟨by decide, ?_⟩
  obtain ⟨pieces, calls, _, _, _, h2, h3, _⟩ :=
    C2_gzip_single_stream ZFilter.store (Config.mk 0 2 "7") 5 [[1, 2, 3], []] [4, 5] []
      (by decide) (by decide)
  exact ⟨pieces, calls, h2, h3⟩

/-! ## C10: `FileManager::Init` -/

theorem string_empty_iff (s : String) : s.data.length = 0 ↔ s = "" := by
  constructor
  · intro h
    apply String.ext
    exact List.length_eq_zero.mp h
  · intro h
    subst h
    rfl

theorem last_index_eq_getLast? (l : List Char) : l[l.length - 1]? = l.getLast? := by
  rw [List.getLast?_eq_getElem?]

/-- The result of `Init` on a non-empty argument. -/
theorem Init_nonempty (fm : FileManager) (root_dir : String) (h : root_dir ≠ "") :
    fm.Init root_dir
      = (true, { root_dir_ := if root_dir.data.getLast? = some '/' then root_dir
                              else root_dir ++ "/" }) := by
  have hlen : ¬ root_dir.data.length = 0 := fun h0 => h ((string_empty_iff _).mp h0)
  unfold FileManager.Init
  simp only [hlen, if_false, last_index_eq_getLast?]
  by_cases hl : root_dir.data.getLast? = some '/'
  · simp [hl]
  · simp [hl]

/-- C10. `FileManager::Init(root_dir)` returns false exactly when `root_dir` is
empty, and then leaves the object unchanged; otherwise it returns true and the
root directory becomes `root_dir` when that already ends with `/`, and `root_dir`
followed by one `/` when it does not. After a successful `Init` the root
directory is non-empty, ends with `/`, and `Init` applied to it succeeds and
changes nothing. A default-constructed `FileManager` has root directory `./`. -/
theorem C10_file_manager_init (fm : FileManager) (root_dir : String) :
    ((fm.Init root_dir).1 = false ↔ root_dir = "")
    ∧ (root_dir = "" → (fm.Init root_dir).2 = fm)
    ∧ (root_dir ≠ "" →
        (fm.Init root_dir).1 = true
        ∧ (root_dir.data.getLast? = some '/' → (fm.Init root_dir).2.root_dir = root_dir)
        ∧ (root_dir.data.getLast? ≠ some '/' →
            (fm.Init root_dir).2.root_dir = root_dir ++ "/"))
    ∧ ((fm.Init root_dir).1 = true →
        (fm.Init root_dir).2.root_dir ≠ ""
        ∧ (fm.Init root_dir).2.root_dir.data.getLast? = some '/'
        ∧ (fm.Init root_dir).2.Init (fm.Init root_dir).2.root_dir
            = (true, (fm.Init root_dir).2))
    ∧ FileManager.new.root_dir = "./" := by
  by_cases h : root_dir = ""
  · subst h
    have h0 : fm.Init "" = (false, fm) := rfl
    simp [h0]
    rfl
  · have hI := Init_nonempty fm root_dir h
    have hlast : (if root_dir.data.getLast? = some '/' then root_dir
        else root_dir ++ "/").data.getLast? = some '/' := by
      by_cases hl : root_dir.data.getLast? = some '/'
      · simp [hl]
      · simp [hl, String.data_append]
    have hne : (if root_dir.data.getLast? = some '/' then root_dir
        else root_dir ++ "/") ≠ "" := by
      intro h0
      rw [h0] at hlast
      simp at hlast
    refine ⟨?_, fun h0 => absurd h0 h, fun _ => ⟨?_, ?_, ?_⟩, fun _ => ⟨?_, ?_, ?_⟩, rfl⟩
    · rw [hI]
      simp [h]
    · rw [hI]
    · intro hl
      rw [hI]
      simp [FileManager.root_dir, hl]
    · intro hl
      rw [hI]
      simp [FileManager.root_dir, hl]
    · rw [hI]
      exact hne
    · rw [hI]
      exact hlast
    · rw [hI]
      simp only [FileManager.root_dir]
      rw [Init_nonempty _ _ hne]
      simp [hlast]

/-! ## The branches of one iteration -/

theorem respond_close_noChannel (Z : ZFilter) (cfg : Config) (fuel : Nat) (ev : Event)
    (st : Session) (hc : st.req.cclose = true) (ho : st.is_opened = false) :
    respond Z cfg fuel ev st
      = some ({ st with pclose := true, send_data := false },
          failureOut "Close request received but there is not any channel opened") := by
  simp [respond, dispatch, hc, ho]

theorem respond_close_other (Z : ZFilter) (cfg : Config) (fuel : Nat) (ev : Event)
    (st : Session) (hc : st.req.cclose = true) (ho : st.is_opened = true)
    (h1 : st.req.param_cclose ≠ "*") (h2 : st.req.param_cclose ≠ cfg.channel) :
    respond Z cfg fuel ev st
      = some ({ st with pclose := true, send_data := false },
          failureOut "Close request received related to another channel") := by
  simp [respond, dispatch, hc, ho, h1, h2]

theorem respond_close_ok (Z : ZFilter) (cfg : Config) (fuel : Nat) (ev : Event)
    (st : Session) (hc : st.req.cclose = true) (ho : st.is_opened = true)
    (h : st.req.param_cclose = "*" ∨ st.req.param_cclose = cfg.channel) :
    respond Z cfg fuel ev st
      = some ({ st with pclose := false, send_data := false, is_opened := false,
                        req := { st.req with cache_model := st.req.cache_model.Clear },
                        calls := .cacheClear :: st.calls },
          ⟨closeHead, []⟩) := by
  rcases h with h | h <;> simp [respond, dispatch, hc, ho, h]

theorem respond_cnew_dup (Z : ZFilter) (cfg : Config) (fuel : Nat) (ev : Event)
    (st : Session) (hc : st.req.cclose = false) (hn : st.req.cnew = true)
    (ho : st.is_opened = true) :
    respond Z cfg fuel ev st
      = some ({ st with pclose := true, send_data := false },
          failureOut
            "There already is a channel opened. Only one channel per client is supported") := by
  simp [respond, dispatch, hc, hn, ho]

theorem respond_cnew_openFailed (Z : ZFilter) (cfg : Config) (fuel : Nat) (ev : Event)
    (st : Session) (hc : st.req.cclose = false) (hn : st.req.cnew = true)
    (ho : st.is_opened = false) (hi : ev.openImage = false) :
    respond Z cfg fuel ev st
      = some ({ st with pclose := true, send_data := false,
                        calls := .openImage (if st.req.target then st.req.param_target
                          else st.req.object) false :: st.calls },
          failureOut "") := by
  simp [respond, dispatch, hc, hn, ho, hi]

theorem respond_cnew_setFailed (Z : ZFilter) (cfg : Config) (fuel : Nat) (ev : Event)
    (st : Session) (hc : st.req.cclose = false) (hn : st.req.cnew = true)
    (ho : st.is_opened = false) (hi : ev.openImage = true) (hs : ev.setRequest = false) :
    respond Z cfg fuel ev st
      = some ({ st with pclose := true, send_data := false, is_opened := true,
                        calls := .setRequest false :: .reset
                          :: .openImage (if st.req.target then st.req.param_target
                                else st.req.object) true :: st.calls },
          failureOut "") := by
  simp [respond, dispatch, hc, hn, ho, hi, hs]

theorem respond_cnew_data (Z : ZFilter) (cfg : Config) (fuel : Nat) (ev : Event)
    (st : Session) (hc : st.req.cclose = false) (hn : st.req.cnew = true)
    (ho : st.is_opened = false) (hi : ev.openImage = true) (hs : ev.setRequest = true) :
    respond Z cfg fuel ev st
      = (sendData Z cfg fuel (st.req.metareq && scanHeaders ev.headers) ev.chunks).map
          fun r =>
            ({ st with pclose := r.2.1, send_data := true, is_opened := true,
                       calls := r.2.2 ++ (.setRequest true :: .reset
                          :: .openImage (if st.req.target then st.req.param_target
                                else st.req.object) true :: st.calls) },
             ⟨cnewHead cfg.channel (if st.req.target then st.req.param_target
                  else st.req.object) (st.req.metareq && scanHeaders ev.headers), r.1⟩) := by
  simp only [respond, dispatch, hc, hn, ho, hi, hs]
  cases sendData Z cfg fuel (st.req.metareq && scanHeaders ev.headers) ev.chunks <;> simp

theorem respond_cid_noChannel (Z : ZFilter) (cfg : Config) (fuel : Nat) (ev : Event)
    (st : Session) (hc : st.req.cclose = false) (hn : st.req.cnew = false)
    (hi : st.req.cid = true) (ho : st.is_opened = false) :
    respond Z cfg fuel ev st
      = some ({ st with pclose := true, send_data := false },
          failureOut "Request received but no channel is opened") := by
  simp [respond, dispatch, hc, hn, hi, ho]

theorem respond_cid_other (Z : ZFilter) (cfg : Config) (fuel : Nat) (ev : Event)
    (st : Session) (hc : st.req.cclose = false) (hn : st.req.cnew = false)
    (hi : st.req.cid = true) (ho : st.is_opened = true)
    (h : st.req.param_cid ≠ cfg.channel) :
    respond Z cfg fuel ev st
      = some ({ st with pclose := true, send_data := false },
          failureOut "Request related to another channel") := by
  simp [respond, dispatch, hc, hn, hi, ho, h]

theorem respond_cid_setFailed (Z : ZFilter) (cfg : Config) (fuel : Nat) (ev : Event)
    (st : Session) (hc : st.req.cclose = false) (hn : st.req.cnew = false)
    (hi : st.req.cid = true) (ho : st.is_opened = true)
    (h : st.req.param_cid = cfg.channel) (hs : ev.setRequest = false) :
    respond Z cfg fuel ev st
      = some ({ st with pclose := true, send_data := false,
                        calls := .setRequest false :: st.calls },
          failureOut "") := by
  simp [respond, dispatch, hc, hn, hi, ho, h, hs]

theorem respond_cid_data (Z : ZFilter) (cfg : Config) (fuel : Nat) (ev : Event)
    (st : Session) (hc : st.req.cclose = false) (hn : st.req.cnew = false)
    (hi : st.req.cid = true) (ho : st.is_opened = true)
    (h : st.req.param_cid = cfg.channel) (hs : ev.setRequest = true) :
    respond Z cfg fuel ev st
      = (sendData Z cfg fuel (st.req.metareq && scanHeaders ev.headers) ev.chunks).map
          fun r =>
            ({ st with pclose := r.2.1, send_data := true,
                       calls := r.2.2 ++ (.setRequest true :: st.calls) },
             ⟨cidHead (st.req.metareq && scanHeaders ev.headers), r.1⟩) := by
  simp only [respond, dispatch, hc, hn, hi, ho, h, hs]
  cases sendData Z cfg fuel (st.req.metareq && scanHeaders ev.headers) ev.chunks <;> simp

theorem respond_noDirective (Z : ZFilter) (cfg : Config) (fuel : Nat) (ev : Event)
    (st : Session) (hc : st.req.cclose = false) (hn : st.req.cnew = false)
    (hi : st.req.cid = false) :
    respond Z cfg fuel ev st
      = some ({ st with pclose := true, send_data := false },
          failureOut "Invalid request (channel parameter not found)") := by
  simp [respond, dispatch, hc, hn, hi]

/-- Every iteration takes exactly one of the twelve branches of lines 119-186. -/
theorem bool_cases (b : Bool) : b = false ∨ b = true := by
  cases b <;> simp

theorem respond_cases (Z : ZFilter) (cfg : Config) (fuel : Nat) (ev : Event) (st : Session) :
    (st.req.cclose = true ∧ st.is_opened = false
      ∧ respond Z cfg fuel ev st
        = some ({ st with pclose := true, send_data := false },
            failureOut "Close request received but there is not any channel opened"))
    ∨ (st.req.cclose = true ∧ st.is_opened = true
      ∧ st.req.param_cclose ≠ "*" ∧ st.req.param_cclose ≠ cfg.channel
      ∧ respond Z cfg fuel ev st
        = some ({ st with pclose := true, send_data := false },
            failureOut "Close request received related to another channel"))
    ∨ (st.req.cclose = true ∧ st.is_opened = true
      ∧ (st.req.param_cclose = "*" ∨ st.req.param_cclose = cfg.channel)
      ∧ respond Z cfg fuel ev st
        = some ({ st with pclose := false, send_data := false, is_opened := false,
                          req := { st.req with cache_model := st.req.cache_model.Clear },
                          calls := .cacheClear :: st.calls },
            ⟨closeHead, []⟩))
    ∨ (st.req.cclose = false ∧ st.req.cnew = true ∧ st.is_opened = true
      ∧ respond Z cfg fuel ev st
        = some ({ st with pclose := true, send_data := false },
            failureOut
              "There already is a channel opened. Only one channel per client is supported"))
    ∨ (st.req.cclose = false ∧ st.req.cnew = true ∧ st.is_opened = false
      ∧ ev.openImage = false
      ∧ respond Z cfg fuel ev st
        = some ({ st with pclose := true, send_data := false,
                          calls := .openImage (fileNameOf st.req) false :: st.calls },
            failureOut ""))
    ∨ (st.req.cclose = false ∧ st.req.cnew = true ∧ st.is_opened = false
      ∧ ev.openImage = true ∧ ev.setRequest = false
      ∧ respond Z cfg fuel ev st
        = some ({ st with pclose := true, send_data := false, is_opened := true,
                          calls := .setRequest false :: .reset
                            :: .openImage (fileNameOf st.req) true :: st.calls },
            failureOut ""))
    ∨ (st.req.cclose = false ∧ st.req.cnew = true ∧ st.is_opened = false
      ∧ ev.openImage = true ∧ ev.setRequest = true
      ∧ respond Z cfg fuel ev st
        = (sendData Z cfg fuel (st.req.metareq && scanHeaders ev.headers) ev.chunks).map
            fun r =>
              ({ st with pclose := r.2.1, send_data := true, is_opened := true,
                         calls := r.2.2 ++ (.setRequest true :: .reset
                            :: .openImage (fileNameOf st.req) true :: st.calls) },
               ⟨cnewHead cfg.channel (fileNameOf st.req)
                  (st.req.metareq && scanHeaders ev.headers), r.1⟩))
    ∨ (st.req.cclose = false ∧ st.req.cnew = false ∧ st.req.cid = true
      ∧ st.is_opened = false
      ∧ respond Z cfg fuel ev st
        = some ({ st with pclose := true, send_data := false },
            failureOut "Request received but no channel is opened"))
    ∨ (st.req.cclose = false ∧ st.req.cnew = false ∧ st.req.cid = true
      ∧ st.is_opened = true ∧ st.req.param_cid ≠ cfg.channel
      ∧ respond Z cfg fuel ev st
        = some ({ st with pclose := true, send_data := false },
            failureOut "Request related to another channel"))
    ∨ (st.req.cclose = false ∧ st.req.cnew = false ∧ st.req.cid = true
      ∧ st.is_opened = true ∧ st.req.param_cid = cfg.channel ∧ ev.setRequest = false
      ∧ respond Z cfg fuel ev st
        = some ({ st with pclose := true, send_data := false,
                          calls := .setRequest false :: st.calls },
            failureOut ""))
    ∨ (st.req.cclose = false ∧ st.req.cnew = false ∧ st.req.cid = true
      ∧ st.is_opened = true ∧ st.req.param_cid = cfg.channel ∧ ev.setRequest = true
      ∧ respond Z cfg fuel ev st
        = (sendData Z cfg fuel (st.req.metareq && scanHeaders ev.headers) ev.chunks).map
            fun r =>
              ({ st with pclose := r.2.1, send_data := true,
                         calls := r.2.2 ++ (.setRequest true :: st.calls) },
               ⟨cidHead (st.req.metareq && scanHeaders ev.headers), r.1⟩))
    ∨ (st.req.cclose = false ∧ st.req.cnew = false ∧ st.req.cid = false
      ∧ respond Z cfg fuel ev st
        = some ({ st with pclose := true, send_data := false },
            failureOut "Invalid request (channel parameter not found)")) := by
  rcases bool_cases st.req.cclose with hc | hc
  · rcases bool_cases st.req.cnew with hn | hn
    · rcases bool_cases st.req.cid with hi | hi
      · exact .inr <| .inr <| .inr <| .inr <| .inr <| .inr <| .inr <| .inr <| .inr <| .inr <|
          .inr ⟨hc, hn, hi, respond_noDirective Z cfg fuel ev st hc hn hi⟩
      · rcases bool_cases st.is_opened with ho | ho
        · exact .inr <| .inr <| .inr <| .inr <| .inr <| .inr <| .inr <|
            .inl ⟨hc, hn, hi, ho, respond_cid_noChannel Z cfg fuel ev st hc hn hi ho⟩
        · by_cases h : st.req.param_cid = cfg.channel
          · rcases bool_cases ev.setRequest with hs | hs
            · exact .inr <| .inr <| .inr <| .inr <| .inr <| .inr <| .inr <| .inr <| .inr <|
                .inl ⟨hc, hn, hi, ho, h, hs,
                  respond_cid_setFailed Z cfg fuel ev st hc hn hi ho h hs⟩
            · exact .inr <| .inr <| .inr <| .inr <| .inr <| .inr <| .inr <| .inr <| .inr <|
                .inr <| .inl ⟨hc, hn, hi, ho, h, hs,
                  respond_cid_data Z cfg fuel ev st hc hn hi ho h hs⟩
          · exact .inr <| .inr <| .inr <| .inr <| .inr <| .inr <| .inr <| .inr <|
              .inl ⟨hc, hn, hi, ho, h, respond_cid_other Z cfg fuel ev st hc hn hi ho h⟩
    · rcases bool_cases st.is_opened with ho | ho
      · rcases bool_cases ev.openImage with hi | hi
        · exact .inr <| .inr <| .inr <| .inr <|
            .inl ⟨hc, hn, ho, hi, respond_cnew_openFailed Z cfg fuel ev st hc hn ho hi⟩
        · rcases bool_cases ev.setRequest with hs | hs
          · exact .inr <| .inr <| .inr <| .inr <| .inr <|
              .inl ⟨hc, hn, ho, hi, hs,
                respond_cnew_setFailed Z cfg fuel ev st hc hn ho hi hs⟩
          · exact .inr <| .inr <| .inr <| .inr <| .inr <| .inr <|
              .inl ⟨hc, hn, ho, hi, hs, respond_cnew_data Z cfg fuel ev st hc hn ho hi hs⟩
      · exact .inr <| .inr <| .inr <|
          .inl ⟨hc, hn, ho, respond_cnew_dup Z cfg fuel ev st hc hn ho⟩
  · rcases bool_cases st.is_opened with ho | ho
    · exact .inl ⟨hc, ho, respond_close_noChannel Z cfg fuel ev st hc ho⟩
    · by_cases h : st.req.param_cclose = "*" ∨ st.req.param_cclose = cfg.channel
      · exact .inr <| .inr <| .inl ⟨hc, ho, h, respond_close_ok Z cfg fuel ev st hc ho h⟩
      · exact .inr <| .inl ⟨hc, ho, fun e => h (.inl e), fun e => h (.inr e),
          respond_close_other Z cfg fuel ev st hc ho (fun e => h (.inl e))
            (fun e => h (.inr e))⟩

/-! ## Unfolding the session loop -/

/-- An iteration that answers a request: the loop then goes on with the rest. -/
theorem run_step (Z : ZFilter) (cfg : Config) (fuel : Nat) (st st1 : Session) (ev : Event)
    (rest : List Event) (req : Request) (out : CycleOut)
    (hp : st.pclose = false) (ht : ¬ (cfg.com_time_out > 0 ∧ ev.wait = 0))
    (hparsed : ev.parsed = some req)
    (hr : respond Z cfg fuel ev { st with req := req } = some (st1, out)) :
    Run Z cfg fuel st (ev :: rest)
      = (Run Z cfg fuel st1 rest).map fun r => ⟨r.st, out :: r.outs, r.unread⟩ := by
  rw [Run, if_neg (by simp [hp]), if_neg ht]
  simp only [hparsed]
  rw [hr]

/-- Once `pclose` is set the loop is left without looking at anything more. -/
theorem run_closed (Z : ZFilter) (cfg : Config) (fuel : Nat) (st : Session)
    (evs : List Event) (hp : st.pclose = true) :
    Run Z cfg fuel st evs = some ⟨st, [], evs⟩ := by
  cases evs with
  | nil => rfl
  | cons ev rest => rw [Run, if_pos hp]

/-! ## C3: channel close -/

/-- C3. For a request with the close directive: when a channel is open and the
target is `*` or this connection's channel id, the cache model is cleared, the
state becomes "no channel", the loop goes on (`pclose = false`) and the response
is a 200 with `Content-Length: 0` and no body; when no channel is open or the
target names another channel, the failure response with the matching message
is sent and `is_opened`, the request with its cache model, and the record of
calls are unchanged. A 200 is sent if and only if the channel is open and the
target matches. `close=*` on an open channel followed by another `close=*` gives
first the empty success and then the failure response whose body is the message
that no channel is open. -/
theorem C3_channel_close (Z : ZFilter) (cfg : Config) (fuel : Nat) (ev : Event)
    (st : Session) (hc : st.req.cclose = true) :
    (st.is_opened = true ∧ (st.req.param_cclose = "*" ∨ st.req.param_cclose = cfg.channel) →
      respond Z cfg fuel ev st
        = some ({ st with pclose := false, send_data := false, is_opened := false,
                          req := { st.req with cache_model := { delivered := [] } },
                          calls := .cacheClear :: st.calls },
            ⟨[ .response 200,
               .header ⟨.AccessControlAllowOrigin, "*"⟩,
               .header ⟨.StrictTransportSecurity, "max-age=31536000; includeSubDomains;"⟩,
               .header ⟨.CacheControl, "no-cache"⟩,
               .header ⟨.ContentLength, "0"⟩,
               .crlf ], []⟩))
    ∧ (¬ (st.is_opened = true
          ∧ (st.req.param_cclose = "*" ∨ st.req.param_cclose = cfg.channel)) →
      respond Z cfg fuel ev st
        = some ({ st with pclose := true, send_data := false },
            failureOut (if st.is_opened
              then "Close request received related to another channel"
              else "Close request received but there is not any channel opened")))
    ∧ (∀ st1 out, respond Z cfg fuel ev st = some (st1, out) →
        (Out.response 200 ∈ out.head ↔
          (st.is_opened = true
            ∧ (st.req.param_cclose = "*" ∨ st.req.param_cclose = cfg.channel))))
    ∧ (∀ (s0 : Session) (e1 e2 : Event) (r1 r2 : Request),
        s0.pclose = false → s0.is_opened = true →
        ¬ (cfg.com_time_out > 0 ∧ e1.wait = 0) → ¬ (cfg.com_time_out > 0 ∧ e2.wait = 0) →
        e1.parsed = some r1 → r1.cclose = true → r1.param_cclose = "*" →
        e2.parsed = some r2 → r2.cclose = true → r2.param_cclose = "*" →
        (Run Z cfg fuel s0 [e1, e2]).map (fun r => (r.outs, r.st.is_opened, r.unread))
          = some ([⟨closeHead, []⟩,
                   ⟨[ .response 500,
                      .header ⟨.AccessControlAllowOrigin, "*"⟩,
                      .header ⟨.StrictTransportSecurity,
                        "max-age=31536000; includeSubDomains;"⟩,
                      .header ⟨.CacheControl, "no-cache"⟩,
                      .header ⟨.ContentLength, "58"⟩,
                      .crlf ],
                    bytesOf "Close request received but there is not any channel opened"⟩],
                  false, [])) := by
  have hok : st.is_opened = true
      ∧ (st.req.param_cclose = "*" ∨ st.req.param_cclose = cfg.channel) →
      respond Z cfg fuel ev st
        = some ({ st with pclose := false, send_data := false, is_opened := false,
                          req := { st.req with cache_model := { delivered := [] } },
                          calls := .cacheClear :: st.calls }, ⟨closeHead, []⟩) := by
    rintro ⟨ho, h⟩
    exact respond_close_ok Z cfg fuel ev st hc ho h
  have hbad : ¬ (st.is_opened = true
        ∧ (st.req.param_cclose = "*" ∨ st.req.param_cclose = cfg.channel)) →
      respond Z cfg fuel ev st
        = some ({ st with pclose := true, send_data := false },
            failureOut (if st.is_opened
              then "Close request received related to another channel"
              else "Close request received but there is not any channel opened")) := by
    intro h
    by_cases ho : st.is_opened = true
    · have h1 : st.req.param_cclose ≠ "*" := fun e => h ⟨ho, Or.inl e⟩
      have h2 : st.req.param_cclose ≠ cfg.channel := fun e => h ⟨ho, Or.inr e⟩
      rw [respond_close_other Z cfg fuel ev st hc ho h1 h2]
      simp [ho]
    · have ho1 : st.is_opened = false := by simpa using ho
      rw [respond_close_noChannel Z cfg fuel ev st hc ho1]
      simp [ho1]
  refine ⟨hok, hbad, ?_, ?_⟩
  · intro st1 out hres
    by_cases h : st.is_opened = true
        ∧ (st.req.param_cclose = "*" ∨ st.req.param_cclose = cfg.channel)
    · rw [hok h] at hres
      simp only [Option.some.injEq, Prod.mk.injEq] at hres
      rw [← hres.2]
      simp [h, closeHead]
    · rw [hbad h] at hres
      simp only [Option.some.injEq, Prod.mk.injEq] at hres
      rw [← hres.2]
      simp [h, failureOut]
  · intro s0 e1 e2 r1 r2 hp ho ht1 ht2 hp1 hc1 hs1 hp2 hc2 hs2
    have hr1 := respond_close_ok Z cfg fuel e1 { s0 with req := r1 } hc1 ho (Or.inl hs1)
    have hr2 := respond_close_noChannel Z cfg fuel e2
      { s0 with pclose := false, send_data := false, is_opened := false,
                req := r2, calls := .cacheClear :: s0.calls } hc2 rfl
    rw [run_step Z cfg fuel s0 _ e1 [e2] r1 _ hp ht1 hp1 hr1,
      run_step Z cfg fuel _ _ e2 [] r2 _ rfl ht2 hp2 hr2, run_closed _ _ _ _ _ rfl]
    simp only [Option.map_some', Option.some.injEq, Prod.mk.injEq, List.cons.injEq, and_true,
      true_and]
    decide

/-- The statement C3 at a concrete input: `cclose=*` on a session whose channel is
open. -/
theorem C3_channel_close_witness :
    respond ZFilter.store Config.sample 0 (Event.of Request.closeAll [] true true [])
        (Session.opened Request.closeAll)
      = some ({ pclose := false, is_opened := false, send_data := false,
                req := { Request.closeAll with cache_model := { delivered := [] } },
                calls := [.cacheClear] },
            ⟨[ .response 200,
               .header ⟨.AccessControlAllowOrigin, "*"⟩,
               .header ⟨.StrictTransportSecurity, "max-age=31536000; includeSubDomains;"⟩,
               .header ⟨.CacheControl, "no-cache"⟩,
               .header ⟨.ContentLength, "0"⟩,
               .crlf ], []⟩) :=
  (C3_channel_close ZFilter.store Config.sample 0 (Event.of Request.closeAll [] true true [])
    (Session.opened Request.closeAll) rfl).1 ⟨rfl, Or.inl rfl⟩

/-! ## C4: a second channel-new -/

theorem chunkLoop_calls (gs : List GenResult) :
    ∀ r, chunkLoop gs = some r → ∀ c ∈ r.calls, ∃ g, c = Call.generateChunk g := by
  induction gs with
  | nil => intro r h; simp [chunkLoop] at h
  | cons g gs ih =>
    intro r h c hc
    cases g with
    | fail =>
      simp only [chunkLoop, Option.some.injEq] at h
      subst h
      simp only [List.mem_singleton] at hc
      exact ⟨_, hc⟩
    | ok chunk last =>
      cases last with
      | true =>
        simp only [chunkLoop, if_true, Option.some.injEq] at h
        subst h
        simp only [List.mem_singleton] at hc
        exact ⟨_, hc⟩
      | false =>
        simp only [chunkLoop, Bool.false_eq_true, if_false, Option.map_eq_some'] at h
        obtain ⟨r1, hr1, rfl⟩ := h
        simp only [List.mem_append, List.mem_singleton] at hc
        rcases hc with hc | hc
        · exact ih r1 hr1 c hc
        · exact ⟨_, hc⟩

theorem sendData_calls (Z : ZFilter) (cfg : Config) (fuel : Nat) (gz : Bool)
    (gs : List GenResult) (body : List Byte) (pc : Bool) (calls : List Call)
    (h : sendData Z cfg fuel gz gs = some (body, pc, calls)) :
    ∃ r, chunkLoop gs = some r ∧ r.calls = calls ∧ r.pclose = pc := by
  unfold sendData at h
  cases hl : chunkLoop gs with
  | none => simp [hl] at h
  | some r =>
    simp only [hl] at h
    cases gz with
    | false =>
      simp only [Bool.not_false, if_true, Option.some.injEq, Prod.mk.injEq] at h
      exact ⟨r, rfl, h.2.2, h.2.1⟩
    | true =>
      simp only [Bool.not_true, Bool.false_eq_true, if_false] at h
      cases hs : resplit cfg.buf_len fuel (Z.bytes (zfilterFeed Z r.sent)) with
      | none => simp [hs] at h
      | some pieces =>
        simp only [hs, Option.some.injEq, Prod.mk.injEq] at h
        exact ⟨r, rfl, h.2.2, h.2.1⟩

theorem channelsOpen_generate (calls older : List Call)
    (h : ∀ c ∈ calls, ∃ g, c = Call.generateChunk g) :
    channelsOpen (calls ++ older) = channelsOpen older := by
  induction calls with
  | nil => rfl
  | cons c cs ih =>
    obtain ⟨g, rfl⟩ := h _ (List.mem_cons_self _ _)
    simp only [List.cons_append, channelsOpen]
    exact ih (fun c hc => h c (List.mem_cons_of_mem _ hc))

/-- One iteration keeps the number of open channels equal to the flag
`is_opened`. -/
theorem respond_channelsOpen (Z : ZFilter) (cfg : Config) (fuel : Nat) (ev : Event)
    (st st1 : Session) (out : CycleOut)
    (hinv : channelsOpen st.calls = if st.is_opened then 1 else 0)
    (h : respond Z cfg fuel ev st = some (st1, out)) :
    channelsOpen st1.calls = if st1.is_opened then 1 else 0 := by
  rcases respond_cases Z cfg fuel ev st with
    ⟨_, ho, e⟩ | ⟨_, ho, _, _, e⟩ | ⟨_, ho, _, e⟩ | ⟨_, _, ho, e⟩ | ⟨_, _, ho, _, e⟩
    | ⟨_, _, ho, _, _, e⟩ | ⟨_, _, ho, _, _, e⟩ | ⟨_, _, _, ho, e⟩ | ⟨_, _, _, ho, _, e⟩
    | ⟨_, _, _, ho, _, _, e⟩ | ⟨_, _, _, ho, _, _, e⟩ | ⟨_, _, _, e⟩
  all_goals rw [e] at h
  case inr.inr.inr.inr.inr.inr.inl =>
    simp only [Option.map_eq_some', Prod.mk.injEq] at h
    obtain ⟨⟨body, pc, calls⟩, hsd, rfl, _⟩ := h
    obtain ⟨r, hr, hcalls, _⟩ := sendData_calls Z cfg fuel _ _ _ _ _ hsd
    have hg := chunkLoop_calls _ r hr
    rw [hcalls] at hg
    simp only [channelsOpen_generate _ _ hg, channelsOpen, if_true]
    rw [hinv, ho]
    rfl
  case inr.inr.inr.inr.inr.inr.inr.inr.inr.inr.inl =>
    simp only [Option.map_eq_some', Prod.mk.injEq] at h
    obtain ⟨⟨body, pc, calls⟩, hsd, rfl, _⟩ := h
    obtain ⟨r, hr, hcalls, _⟩ := sendData_calls Z cfg fuel _ _ _ _ _ hsd
    have hg := chunkLoop_calls _ r hr
    rw [hcalls] at hg
    simp only [channelsOpen_generate _ _ hg, channelsOpen]
    exact hinv
  all_goals
    simp only [Option.some.injEq, Prod.mk.injEq] at h
    obtain ⟨rfl, _⟩ := h
    first
      | simp [channelsOpen, hinv, ho]
      | simp [channelsOpen, hinv]

/-- Throughout a session the number of open channels equals the flag `is_opened`. -/
theorem run_channelsOpen (Z : ZFilter) (cfg : Config) (fuel : Nat) (evs : List Event) :
    ∀ (st : Session) (r : RunOut),
      channelsOpen st.calls = (if st.is_opened then 1 else 0) →
      Run Z cfg fuel st evs = some r →
      channelsOpen r.st.calls = if r.st.is_opened then 1 else 0 := by
  induction evs with
  | nil =>
    intro st r hinv h
    simp only [Run, Option.some.injEq] at h
    subst h
    exact hinv
  | cons ev rest ih =>
    intro st r hinv h
    rw [Run] at h
    split_ifs at h with hp ht
    · simp only [Option.some.injEq] at h
      subst h
      exact hinv
    · simp only [Option.some.injEq] at h
      subst h
      exact hinv
    · cases hparsed : ev.parsed with
      | none =>
        simp only [hparsed, Option.some.injEq] at h
        subst h
        exact hinv
      | some req =>
        simp only [hparsed] at h
        cases hres : respond Z cfg fuel ev { st with req := req } with
        | none => simp [hres] at h
        | some p =>
          obtain ⟨st1, out⟩ := p
          simp only [hres, Option.map_eq_some'] at h
          obtain ⟨r1, hr1, rfl⟩ := h
          exact ih st1 r1
            (respond_channelsOpen Z cfg fuel ev { st with req := req } st1 out hinv hres) hr1

theorem failureOut_eq (err_msg : String) :
    failureOut err_msg = ⟨failureHead (bytesOf err_msg).length, bytesOf err_msg⟩ := by
  unfold failureOut failureHead
  by_cases h : (bytesOf err_msg).length > 0
  · simp [h, CORS, STS, NOCACHE]
  · have h0 : bytesOf err_msg = [] := List.length_eq_zero.mp (by omega)
    simp [h0, CORS, STS, NOCACHE]

/-- C4. A channel-new request (without the close directive) that arrives while a
channel is open is answered with the failure response whose body is the message
that a channel already is opened; `is_opened` stays true, the request and its
cache model are untouched, and no call is made on a collaborator (no
`OpenImage`, no `Reset`, no `SetRequest`, no `GenerateChunk`), so no data-bin byte
is sent. In every session started with no channel, the number of channels open
after any number of iterations is at most one, and is one exactly when
`is_opened` holds. -/
theorem C4_second_channel_new_rejected (Z : ZFilter) (cfg : Config) (fuel : Nat)
    (ev : Event) (st : Session)
    (hc : st.req.cclose = false) (hn : st.req.cnew = true) (ho : st.is_opened = true) :
    respond Z cfg fuel ev st
      = some ({ pclose := true, is_opened := true, send_data := false, req := st.req,
                calls := st.calls },
          ⟨failureHead 75, bytesOf
            "There already is a channel opened. Only one channel per client is supported"⟩)
    ∧ ∀ (req0 : Request) (evs : List Event) (r : RunOut),
        Run Z cfg fuel (Session.init req0) evs = some r →
        channelsOpen r.st.calls ≤ 1
        ∧ (channelsOpen r.st.calls = 1 ↔ r.st.is_opened = true) := by
  constructor
  · rw [respond_cnew_dup Z cfg fuel ev st hc hn ho, failureOut_eq, ho]
    rfl
  · intro req0 evs r h
    have hinv := run_channelsOpen Z cfg fuel evs (Session.init req0) r rfl h
    rw [hinv]
    cases r.st.is_opened <;> simp

/-- The statement C4 at a concrete input: a channel-new request on a session whose
channel is open, with collaborators that would accept it. -/
theorem C4_second_channel_new_rejected_witness :
    respond ZFilter.store Config.sample 0
        (Event.of Request.newChannel [] true true [.ok [1, 2] true])
        (Session.opened Request.newChannel)
      = some ({ pclose := true, is_opened := true, send_data := false,
                req := Request.newChannel, calls := [] },
          ⟨failureHead 75, bytesOf
            "There already is a channel opened. Only one channel per client is supported"⟩) :=
  (C4_second_channel_new_rejected ZFilter.store Config.sample 0
    (Event.of Request.newChannel [] true true [.ok [1, 2] true])
    (Session.opened Request.newChannel) rfl rfl rfl).1

/-! ## C5: a request on an existing channel -/

/-- C5. For a request whose directive is a channel id (no close, no new): when no
channel is open, or the id is not this connection's channel id, the failure
response with the matching message is sent, no call is made on a collaborator
(the record of calls is unchanged: no `SetRequest`, no `GenerateChunk`), no
data-bin byte is sent and `is_opened`, the request and its cache model are
unchanged. When a channel is open and the id matches, `SetRequest` is called; if
it refuses, the failure response follows, and if it accepts, the data response
head is sent and then the data phase runs, its `GenerateChunk` calls recorded
after the `SetRequest`. So a collaborator is called, or data is sent, only if a
channel is open and the id matches. -/
theorem C5_request_on_channel (Z : ZFilter) (cfg : Config) (fuel : Nat) (ev : Event)
    (st : Session)
    (hc : st.req.cclose = false) (hn : st.req.cnew = false) (hi : st.req.cid = true) :
    (st.is_opened = false →
      respond Z cfg fuel ev st
        = some ({ pclose := true, is_opened := false, send_data := false, req := st.req,
                  calls := st.calls },
            ⟨failureHead 41, bytesOf "Request received but no channel is opened"⟩))
    ∧ (st.is_opened = true → st.req.param_cid ≠ cfg.channel →
      respond Z cfg fuel ev st
        = some ({ pclose := true, is_opened := true, send_data := false, req := st.req,
                  calls := st.calls },
            ⟨failureHead 34, bytesOf "Request related to another channel"⟩))
    ∧ (st.is_opened = true → st.req.param_cid = cfg.channel → ev.setRequest = false →
      respond Z cfg fuel ev st
        = some ({ pclose := true, is_opened := true, send_data := false, req := st.req,
                  calls := .setRequest false :: st.calls },
            ⟨failureHead 0, []⟩))
    ∧ (st.is_opened = true → st.req.param_cid = cfg.channel → ev.setRequest = true →
      respond Z cfg fuel ev st
        = (sendData Z cfg fuel (st.req.metareq && scanHeaders ev.headers) ev.chunks).map
            fun r =>
              ({ pclose := r.2.1, is_opened := true, send_data := true, req := st.req,
                 calls := r.2.2 ++ (.setRequest true :: st.calls) },
               ⟨cidHead (st.req.metareq && scanHeaders ev.headers), r.1⟩))
    ∧ (∀ st1 out, respond Z cfg fuel ev st = some (st1, out) →
        (st1.calls ≠ st.calls ∨ st1.send_data = true ∨ Out.response 200 ∈ out.head) →
        st.is_opened = true ∧ st.req.param_cid = cfg.channel) := by
  have h1 : st.is_opened = false →
      respond Z cfg fuel ev st
        = some ({ pclose := true, is_opened := false, send_data := false, req := st.req,
                  calls := st.calls },
            ⟨failureHead 41, bytesOf "Request received but no channel is opened"⟩) := by
    intro ho
    rw [respond_cid_noChannel Z cfg fuel ev st hc hn hi ho, failureOut_eq, ho]
    rfl
  have h2 : st.is_opened = true → st.req.param_cid ≠ cfg.channel →
      respond Z cfg fuel ev st
        = some ({ pclose := true, is_opened := true, send_data := false, req := st.req,
                  calls := st.calls },
            ⟨failureHead 34, bytesOf "Request related to another channel"⟩) := by
    intro ho h
    rw [respond_cid_other Z cfg fuel ev st hc hn hi ho h, failureOut_eq, ho]
    rfl
  refine ⟨h1, h2, ?_, ?_, ?_⟩
  · intro ho h hs
    rw [respond_cid_setFailed Z cfg fuel ev st hc hn hi ho h hs, failureOut_eq, ho]
    rfl
  · intro ho h hs
    rw [respond_cid_data Z cfg fuel ev st hc hn hi ho h hs, ho]
  · intro st1 out hres hcalled
    rcases bool_cases st.is_opened with ho | ho
    · rw [h1 ho] at hres
      simp only [Option.some.injEq, Prod.mk.injEq] at hres
      obtain ⟨rfl, rfl⟩ := hres
      simp [failureHead] at hcalled
    · by_cases h : st.req.param_cid = cfg.channel
      · exact ⟨ho, h⟩
      · rw [h2 ho h] at hres
        simp only [Option.some.injEq, Prod.mk.injEq] at hres
        obtain ⟨rfl, rfl⟩ := hres
        simp [failureHead] at hcalled

/-- The statement C5 at a concrete input: a request for channel `8` on the
connection whose channel is `7`. -/
theorem C5_request_on_channel_witness :
    respond ZFilter.store Config.sample 0
        (Event.of (Request.onChannel "8") [] true true [.ok [1, 2] true])
        (Session.opened (Request.onChannel "8"))
      = some ({ pclose := true, is_opened := true, send_data := false,
                req := Request.onChannel "8", calls := [] },
            ⟨failureHead 34, bytesOf "Request related to another channel"⟩) :=
  (C5_request_on_channel ZFilter.store Config.sample 0
    (Event.of (Request.onChannel "8") [] true true [.ok [1, 2] true])
    (Session.opened (Request.onChannel "8")) rfl rfl rfl).2.1 rfl (by decide)

/-! ## C6: when the response is compressed -/

theorem findSub_iff (pat l : List Char) : findSub pat l = true ↔ List.IsInfix pat l := by
  induction l with
  | nil => simp [findSub, List.isPrefixOf_iff_prefix]
  | cons c cs ih =>
    simp only [findSub, Bool.or_eq_true, List.isPrefixOf_iff_prefix, ih, List.infix_cons_iff]

theorem scanHeader_iff (acc : Bool) (h : Header) :
    scanHeader acc h = true ↔
      (acc = true ∨ (h.name = HeaderName.AcceptEncoding
        ∧ List.IsInfix "gzip".toList h.value.toList)) := by
  unfold scanHeader
  rw [← findSub_iff]
  by_cases hcl : h.name = HeaderName.ContentLength
  · have hne : h.name ≠ HeaderName.AcceptEncoding := by rw [hcl]; decide
    rw [if_pos hcl]
    constructor
    · exact Or.inl
    · rintro (h1 | ⟨h1, _⟩)
      · exact h1
      · exact absurd h1 hne
  · rw [if_neg hcl]
    by_cases hae : h.name = HeaderName.AcceptEncoding
        ∧ findSub "gzip".toList h.value.toList = true
    · rw [if_pos hae]
      exact ⟨fun _ => Or.inr hae, fun _ => rfl⟩
    · rw [if_neg hae]
      constructor
      · exact Or.inl
      · rintro (h1 | h1)
        · exact h1
        · exact absurd h1 hae

theorem foldl_scanHeader (hs : List Header) :
    ∀ acc : Bool, hs.foldl scanHeader acc = true ↔
      (acc = true ∨ ∃ h ∈ hs, h.name = HeaderName.AcceptEncoding
        ∧ List.IsInfix "gzip".toList h.value.toList) := by
  induction hs with
  | nil => intro acc; simp
  | cons h hs ih =>
    intro acc
    rw [List.foldl_cons, ih, scanHeader_iff]
    constructor
    · rintro ((h1 | h1) | ⟨x, hx, hx2⟩)
      · exact Or.inl h1
      · exact Or.inr ⟨h, List.mem_cons_self _ _, h1⟩
      · exact Or.inr ⟨x, List.mem_cons_of_mem _ hx, hx2⟩
    · rintro (h1 | ⟨x, hx, hx2⟩)
      · exact Or.inl (Or.inl h1)
      · rcases List.mem_cons.mp hx with rfl | hx
        · exact Or.inl (Or.inr hx2)
        · exact Or.inr ⟨x, hx, hx2⟩

/-- The flag `accept_gzip` after the header loop: some `Accept-Encoding` header
has a value in which `gzip` occurs. -/
theorem scanHeaders_iff (hs : List Header) :
    scanHeaders hs = true ↔
      ∃ h ∈ hs, h.name = HeaderName.AcceptEncoding
        ∧ List.IsInfix "gzip".toList h.value.toList := by
  unfold scanHeaders
  rw [foldl_scanHeader]
  simp

/-- What an iteration writes depends on the session only through `is_opened` and
the request just parsed. -/
theorem respond_out_congr (Z : ZFilter) (cfg : Config) (fuel : Nat) (ev : Event)
    (st st0 : Session) (h1 : st0.is_opened = st.is_opened) (h2 : st0.req = st.req) :
    (respond Z cfg fuel ev st0).map (fun r => r.2)
      = (respond Z cfg fuel ev st).map (fun r => r.2) := by
  rcases respond_cases Z cfg fuel ev st with
    ⟨a, b, e⟩ | ⟨a, b, c, d, e⟩ | ⟨a, b, c, e⟩ | ⟨a, b, c, e⟩ | ⟨a, b, c, d, e⟩
    | ⟨a, b, c, d, f, e⟩ | ⟨a, b, c, d, f, e⟩ | ⟨a, b, c, d, e⟩ | ⟨a, b, c, d, f, e⟩
    | ⟨a, b, c, d, f, g, e⟩ | ⟨a, b, c, d, f, g, e⟩ | ⟨a, b, c, e⟩
  · rw [e, respond_close_noChannel Z cfg fuel ev st0 (h2 ▸ a) (h1 ▸ b)]; rfl
  · rw [e, respond_close_other Z cfg fuel ev st0 (h2 ▸ a) (h1 ▸ b) (h2 ▸ c) (h2 ▸ d)]; rfl
  · rw [e, respond_close_ok Z cfg fuel ev st0 (h2 ▸ a) (h1 ▸ b) (h2 ▸ c)]; rfl
  · rw [e, respond_cnew_dup Z cfg fuel ev st0 (h2 ▸ a) (h2 ▸ b) (h1 ▸ c)]; rfl
  · rw [e, respond_cnew_openFailed Z cfg fuel ev st0 (h2 ▸ a) (h2 ▸ b) (h1 ▸ c) d]; rfl
  · rw [e, respond_cnew_setFailed Z cfg fuel ev st0 (h2 ▸ a) (h2 ▸ b) (h1 ▸ c) d f]; rfl
  · rw [e, respond_cnew_data Z cfg fuel ev st0 (h2 ▸ a) (h2 ▸ b) (h1 ▸ c) d f, h2]
    simp only [Option.map_map]
    rfl
  · rw [e, respond_cid_noChannel Z cfg fuel ev st0 (h2 ▸ a) (h2 ▸ b) (h2 ▸ c) (h1 ▸ d)]; rfl
  · rw [e, respond_cid_other Z cfg fuel ev st0 (h2 ▸ a) (h2 ▸ b) (h2 ▸ c) (h1 ▸ d)
      (h2 ▸ f)]; rfl
  · rw [e, respond_cid_setFailed Z cfg fuel ev st0 (h2 ▸ a) (h2 ▸ b) (h2 ▸ c) (h1 ▸ d)
      (h2 ▸ f) g]; rfl
  · rw [e, respond_cid_data Z cfg fuel ev st0 (h2 ▸ a) (h2 ▸ b) (h2 ▸ c) (h1 ▸ d)
      (h2 ▸ f) g, h2]
    simp only [Option.map_map]
    rfl
  · rw [e, respond_noDirective Z cfg fuel ev st0 (h2 ▸ a) (h2 ▸ b) (h2 ▸ c)]; rfl

/-- An iteration that ends with `send_data` set went through the data phase:
it wrote one of the two data heads and then what `sendData` produced. -/
theorem respond_data (Z : ZFilter) (cfg : Config) (fuel : Nat) (ev : Event)
    (st st1 : Session) (out : CycleOut)
    (hres : respond Z cfg fuel ev st = some (st1, out)) (hdata : st1.send_data = true) :
    ∃ pc calls,
      sendData Z cfg fuel (st.req.metareq && scanHeaders ev.headers) ev.chunks
        = some (out.body, pc, calls)
      ∧ st1.pclose = pc
      ∧ (out.head = cnewHead cfg.channel (fileNameOf st.req)
            (st.req.metareq && scanHeaders ev.headers)
          ∨ out.head = cidHead (st.req.metareq && scanHeaders ev.headers)) := by
  rcases respond_cases Z cfg fuel ev st with
    ⟨_, _, e⟩ | ⟨_, _, _, _, e⟩ | ⟨_, _, _, e⟩ | ⟨_, _, _, e⟩ | ⟨_, _, _, _, e⟩
    | ⟨_, _, _, _, _, e⟩ | ⟨_, _, _, _, _, e⟩ | ⟨_, _, _, _, e⟩ | ⟨_, _, _, _, _, e⟩
    | ⟨_, _, _, _, _, _, e⟩ | ⟨_, _, _, _, _, _, e⟩ | ⟨_, _, _, e⟩
  all_goals rw [e] at hres
  case inr.inr.inr.inr.inr.inr.inl =>
    simp only [Option.map_eq_some', Prod.mk.injEq] at hres
    obtain ⟨⟨body, pc, calls⟩, hsd, rfl, rfl⟩ := hres
    exact ⟨pc, calls, hsd, rfl, Or.inl rfl⟩
  case inr.inr.inr.inr.inr.inr.inr.inr.inr.inr.inl =>
    simp only [Option.map_eq_some', Prod.mk.injEq] at hres
    obtain ⟨⟨body, pc, calls⟩, hsd, rfl, rfl⟩ := hres
    exact ⟨pc, calls, hsd, rfl, Or.inr rfl⟩
  all_goals
    simp only [Option.some.injEq, Prod.mk.injEq] at hres
    obtain ⟨rfl, _⟩ := hres
    simp at hdata

/-- C6. For every iteration that reaches the data phase: if the request is a
`metareq` request and carried an `Accept-Encoding` header whose value contains
`gzip`, the response head declares `Content-Encoding: gzip` and the body is what
the gzip path writes; in every other case the head has no `Content-Encoding`
header and the body is what the uncompressed path writes. The response depends
on the session only through `is_opened` and the request just parsed, so the
headers of an earlier request have no influence. -/
theorem C6_compression_selection (Z : ZFilter) (cfg : Config) (fuel : Nat) (ev : Event)
    (st st1 : Session) (out : CycleOut)
    (hres : respond Z cfg fuel ev st = some (st1, out)) (hdata : st1.send_data = true) :
    ((st.req.metareq = true
        ∧ ∃ h ∈ ev.headers, h.name = HeaderName.AcceptEncoding
            ∧ List.IsInfix "gzip".toList h.value.toList) →
      Out.header ⟨.ContentEncoding, "gzip"⟩ ∈ out.head
      ∧ ∃ pc calls, sendData Z cfg fuel true ev.chunks = some (out.body, pc, calls))
    ∧ (¬ (st.req.metareq = true
        ∧ ∃ h ∈ ev.headers, h.name = HeaderName.AcceptEncoding
            ∧ List.IsInfix "gzip".toList h.value.toList) →
      (∀ v, Out.header ⟨.ContentEncoding, v⟩ ∉ out.head)
      ∧ ∃ pc calls, sendData Z cfg fuel false ev.chunks = some (out.body, pc, calls))
    ∧ (∀ st0 : Session, st0.is_opened = st.is_opened → st0.req = st.req →
        (respond Z cfg fuel ev st0).map (fun r => r.2) = some out) := by
  obtain ⟨pc, calls, hsd, _, hhead⟩ := respond_data Z cfg fuel ev st st1 out hres hdata
  refine ⟨?_, ?_, ?_⟩
  · intro hgz
    have hsg : (st.req.metareq && scanHeaders ev.headers) = true := by
      rw [Bool.and_eq_true, scanHeaders_iff]
      exact hgz
    rw [hsg] at hsd hhead
    refine ⟨?_, pc, calls, hsd⟩
    rcases hhead with hh | hh <;> rw [hh] <;>
      simp [cnewHead, cidHead, head_data_gzip]
  · intro hgz
    have hsg : (st.req.metareq && scanHeaders ev.headers) = false := by
      rw [Bool.eq_false_iff, ne_eq, Bool.and_eq_true, scanHeaders_iff]
      exact hgz
    rw [hsg] at hsd hhead
    refine ⟨?_, pc, calls, hsd⟩
    intro v
    rcases hhead with hh | hh <;> rw [hh] <;>
      simp [cnewHead, cidHead, head_data]
  · intro st0 h1 h2
    rw [respond_out_congr Z cfg fuel ev st st0 h1 h2, hres]
    rfl

/-- The statement C6 at a concrete input: a `metareq` request on the open channel
`7` with the header `Accept-Encoding: deflate, gzip`; the head declares the
encoding and the five bytes are re-split into units of at most `buf_len = 4`. -/
theorem C6_compression_selection_witness :
    Out.header ⟨.ContentEncoding, "gzip"⟩ ∈ (cidHead true)
    ∧ ∃ pc calls, sendData ZFilter.store Config.sample 3 true [.ok [1, 2, 3, 4, 5] true]
        = some ([52, 13, 10, 1, 2, 3, 4, 13, 10, 49, 13, 10, 5, 13, 10, 48, 13, 10, 13, 10],
            pc, calls) :=
  (C6_compression_selection ZFilter.store Config.sample 3
      (Event.of { Request.onChannel "7" with metareq := true }
        [⟨.AcceptEncoding, "deflate, gzip"⟩] true true [.ok [1, 2, 3, 4, 5] true])
      (Session.opened { Request.onChannel "7" with metareq := true })
      { pclose := false, is_opened := true, send_data := true,
        req := { Request.onChannel "7" with metareq := true },
        calls := [.generateChunk (.ok [1, 2, 3, 4, 5] true), .setRequest true] }
      ⟨cidHead true,
        [52, 13, 10, 1, 2, 3, 4, 13, 10, 49, 13, 10, 5, 13, 10, 48, 13, 10, 13, 10]⟩
      (by decide) rfl).1
    ⟨rfl, ⟨.AcceptEncoding, "deflate, gzip"⟩, List.mem_singleton.mpr rfl, rfl,
      ⟨"deflate, ".toList, [], rfl⟩⟩

/-! ## C7: the failure responses -/

theorem bytesOf_eq_nil (s : String) : bytesOf s = [] ↔ s = "" := by
  unfold bytesOf
  rw [List.map_eq_nil_iff]
  constructor
  · intro h
    exact String.ext h
  · intro h
    rw [h]
    rfl

theorem failureOut_facts (msg : String) :
    (failureOut msg).head = failureHead (failureOut msg).body.length
    ∧ ((failureOut msg).body = [] ↔ msg = "") := by
  rw [failureOut_eq]
  exact ⟨rfl, bytesOf_eq_nil msg⟩

theorem response500_not_mem_data (channel file_name : String) (gz : Bool) :
    Out.response 500 ∉ cnewHead channel file_name gz ∧ Out.response 500 ∉ cidHead gz
    ∧ Out.response 500 ∉ closeHead := by
  cases gz <;> simp [cnewHead, cidHead, closeHead, head_data, head_data_gzip]

theorem failure_response_shape (Z : ZFilter) (cfg : Config) (fuel : Nat) (ev : Event)
    (st : Session) :
    ∀ st1 out, respond Z cfg fuel ev st = some (st1, out) → Out.response 500 ∈ out.head →
        out.head = failureHead out.body.length
        ∧ (out.body = [] ↔
            (st.req.cclose = false
              ∧ ((st.req.cnew = true ∧ st.is_opened = false
                    ∧ (ev.openImage = false ∨ ev.setRequest = false))
                ∨ (st.req.cnew = false ∧ st.req.cid = true ∧ st.is_opened = true
                    ∧ st.req.param_cid = cfg.channel ∧ ev.setRequest = false)))) := by
  intro st1 out hres h500
  rcases respond_cases Z cfg fuel ev st with
    ⟨a, b, e⟩ | ⟨a, b, c, d, e⟩ | ⟨a, b, c, e⟩ | ⟨a, b, c, e⟩ | ⟨a, b, c, d, e⟩
    | ⟨a, b, c, d, f, e⟩ | ⟨a, b, c, d, f, e⟩ | ⟨a, b, c, d, e⟩ | ⟨a, b, c, d, f, e⟩
    | ⟨a, b, c, d, f, g, e⟩ | ⟨a, b, c, d, f, g, e⟩ | ⟨a, b, c, e⟩
  all_goals rw [e] at hres
  case inr.inr.inl =>
    simp only [Option.some.injEq, Prod.mk.injEq] at hres
    obtain ⟨_, rfl⟩ := hres
    exact absurd h500 (response500_not_mem_data "" "" false).2.2
  case inr.inr.inr.inr.inr.inr.inl =>
    simp only [Option.map_eq_some', Prod.mk.injEq] at hres
    obtain ⟨_, _, _, rfl⟩ := hres
    exact absurd h500 (response500_not_mem_data _ _ _).1
  case inr.inr.inr.inr.inr.inr.inr.inr.inr.inr.inl =>
    simp only [Option.map_eq_some', Prod.mk.injEq] at hres
    obtain ⟨_, _, _, rfl⟩ := hres
    exact absurd h500 (response500_not_mem_data "" "" _).2.1
  all_goals
    simp only [Option.some.injEq, Prod.mk.injEq] at hres
    obtain ⟨_, rfl⟩ := hres
    refine ⟨(failureOut_facts _).1, ?_⟩
    rw [(failureOut_facts _).2]
    first
      | simp [a, b, c, d, f, g]
      | simp [a, b, c, d, f]
      | simp [a, b, c, d]
      | simp [a, b, c]
      | simp [a, b]

/-- C7 as stated fails: the failure response to a channel-new request whose image
cannot be opened has status 500, `Content-Length: 0` and an empty body. -/
theorem C7_empty_failure_body :
    (respond ZFilter.store Config.sample 0
        (Event.of Request.newChannel [] false true []) (Session.init Request.newChannel)).map
        (fun r => r.2)
      = some ⟨[ .response 500,
                .header ⟨.AccessControlAllowOrigin, "*"⟩,
                .header ⟨.StrictTransportSecurity, "max-age=31536000; includeSubDomains;"⟩,
                .header ⟨.CacheControl, "no-cache"⟩,
                .header ⟨.ContentLength, "0"⟩,
                .crlf ], []⟩ := by
  decide

/-- C7 (amended). Every failure response (status 500) has a `Content-Length` equal
to the byte length of its body. Its body is empty exactly when the failure is a
refusal by a collaborator (`OpenImage` or `SetRequest` returned false); for each
of the six protocol errors the body is the non-empty message that describes it. -/
theorem C7_failure_responses (Z : ZFilter) (cfg : Config) (fuel : Nat) (ev : Event)
    (st : Session) :
    (∀ st1 out, respond Z cfg fuel ev st = some (st1, out) → Out.response 500 ∈ out.head →
        out.head = failureHead out.body.length
        ∧ (out.body = [] ↔
            (st.req.cclose = false
              ∧ ((st.req.cnew = true ∧ st.is_opened = false
                    ∧ (ev.openImage = false ∨ ev.setRequest = false))
                ∨ (st.req.cnew = false ∧ st.req.cid = true ∧ st.is_opened = true
                    ∧ st.req.param_cid = cfg.channel ∧ ev.setRequest = false)))))
    ∧ (st.req.cclose = true → st.is_opened = false →
        (respond Z cfg fuel ev st).map (fun r => r.2)
          = some ⟨failureHead 58,
              bytesOf "Close request received but there is not any channel opened"⟩)
    ∧ (st.req.cclose = true → st.is_opened = true →
        st.req.param_cclose ≠ "*" → st.req.param_cclose ≠ cfg.channel →
        (respond Z cfg fuel ev st).map (fun r => r.2)
          = some ⟨failureHead 49,
              bytesOf "Close request received related to another channel"⟩)
    ∧ (st.req.cclose = false → st.req.cnew = true → st.is_opened = true →
        (respond Z cfg fuel ev st).map (fun r => r.2)
          = some ⟨failureHead 75, bytesOf
              "There already is a channel opened. Only one channel per client is supported"⟩)
    ∧ (st.req.cclose = false → st.req.cnew = false → st.req.cid = true →
        st.is_opened = false →
        (respond Z cfg fuel ev st).map (fun r => r.2)
          = some ⟨failureHead 41, bytesOf "Request received but no channel is opened"⟩)
    ∧ (st.req.cclose = false → st.req.cnew = false → st.req.cid = true →
        st.is_opened = true → st.req.param_cid ≠ cfg.channel →
        (respond Z cfg fuel ev st).map (fun r => r.2)
          = some ⟨failureHead 34, bytesOf "Request related to another channel"⟩)
    ∧ (st.req.cclose = false → st.req.cnew = false → st.req.cid = false →
        (respond Z cfg fuel ev st).map (fun r => r.2)
          = some ⟨failureHead 45, bytesOf "Invalid request (channel parameter not found)"⟩)
    ∧ (st.req.cclose = false → st.req.cnew = true → st.is_opened = false →
        ev.openImage = false →
        (respond Z cfg fuel ev st).map (fun r => r.2) = some ⟨failureHead 0, []⟩)
    ∧ (st.req.cclose = false → st.req.cnew = true → st.is_opened = false →
        ev.openImage = true → ev.setRequest = false →
        (respond Z cfg fuel ev st).map (fun r => r.2) = some ⟨failureHead 0, []⟩)
    ∧ (st.req.cclose = false → st.req.cnew = false → st.req.cid = true →
        st.is_opened = true → st.req.param_cid = cfg.channel → ev.setRequest = false →
        (respond Z cfg fuel ev st).map (fun r => r.2) = some ⟨failureHead 0, []⟩) := by
  refine ⟨?_, ?_, ?_, ?_, ?_, ?_, ?_, ?_, ?_, ?_⟩
  · exact failure_response_shape Z cfg fuel ev st
  · intro a b
    rw [respond_close_noChannel Z cfg fuel ev st a b, failureOut_eq]
    rfl
  · intro a b c d
    rw [respond_close_other Z cfg fuel ev st a b c d, failureOut_eq]
    rfl
  · intro a b c
    rw [respond_cnew_dup Z cfg fuel ev st a b c, failureOut_eq]
    rfl
  · intro a b c d
    rw [respond_cid_noChannel Z cfg fuel ev st a b c d, failureOut_eq]
    rfl
  · intro a b c d f
    rw [respond_cid_other Z cfg fuel ev st a b c d f, failureOut_eq]
    rfl
  · intro a b c
    rw [respond_noDirective Z cfg fuel ev st a b c, failureOut_eq]
    rfl
  · intro a b c d
    rw [respond_cnew_openFailed Z cfg fuel ev st a b c d, failureOut_eq]
    rfl
  · intro a b c d f
    rw [respond_cnew_setFailed Z cfg fuel ev st a b c d f, failureOut_eq]
    rfl
  · intro a b c d f g
    rw [respond_cid_setFailed Z cfg fuel ev st a b c d f g, failureOut_eq]
    rfl

/-! ## C8: how long the connection lives -/

/-- The chunk loop leaves `pclose` unset exactly when none of its
`GenerateChunk` calls failed. -/
theorem chunkLoop_pclose (gs : List GenResult) :
    ∀ r, chunkLoop gs = some r →
      (r.pclose = false ↔ Call.generateChunk .fail ∉ r.calls) := by
  induction gs with
  | nil => intro r h; simp [chunkLoop] at h
  | cons g gs ih =>
    intro r h
    cases g with
    | fail =>
      simp only [chunkLoop, Option.some.injEq] at h
      subst h
      simp
    | ok chunk last =>
      cases last with
      | true =>
        simp only [chunkLoop, if_true, Option.some.injEq] at h
        subst h
        simp
      | false =>
        simp only [chunkLoop, Bool.false_eq_true, if_false, Option.map_eq_some'] at h
        obtain ⟨r1, hr1, rfl⟩ := h
        simp only [List.mem_append, List.mem_singleton]
        rw [ih r1 hr1]
        simp

theorem failureOut_head_ne_closeHead (msg : String) : (failureOut msg).head ≠ closeHead := by
  simp [failureOut, closeHead]

theorem dataHead_ne_closeHead (channel file_name : String) (gz : Bool) :
    cnewHead channel file_name gz ≠ closeHead ∧ cidHead gz ≠ closeHead := by
  cases gz <;> simp [cnewHead, cidHead, closeHead, head_data, head_data_gzip]

/-- After one iteration `pclose` is unset exactly when the iteration was a
successful close or a data response none of whose `GenerateChunk` calls failed. -/
theorem respond_pclose (Z : ZFilter) (cfg : Config) (fuel : Nat) (ev : Event)
    (st st1 : Session) (out : CycleOut)
    (hres : respond Z cfg fuel ev st = some (st1, out)) :
    (st1.pclose = false ↔
      (out = ⟨closeHead, []⟩
        ∨ (st1.send_data = true
            ∧ ∃ r, chunkLoop ev.chunks = some r ∧ Call.generateChunk .fail ∉ r.calls)))
    ∧ (st1.pclose = true ↔
      (Out.response 500 ∈ out.head
        ∨ (st1.send_data = true
            ∧ ∃ r, chunkLoop ev.chunks = some r ∧ Call.generateChunk .fail ∈ r.calls))) := by
  rcases respond_cases Z cfg fuel ev st with
    ⟨_, _, e⟩ | ⟨_, _, _, _, e⟩ | ⟨_, _, _, e⟩ | ⟨_, _, _, e⟩ | ⟨_, _, _, _, e⟩
    | ⟨_, _, _, _, _, e⟩ | ⟨_, _, _, _, _, e⟩ | ⟨_, _, _, _, e⟩ | ⟨_, _, _, _, _, e⟩
    | ⟨_, _, _, _, _, _, e⟩ | ⟨_, _, _, _, _, _, e⟩ | ⟨_, _, _, e⟩
  all_goals rw [e] at hres
  case inr.inr.inl =>
    simp only [Option.some.injEq, Prod.mk.injEq] at hres
    obtain ⟨rfl, rfl⟩ := hres
    simp [closeHead]
  case inr.inr.inr.inr.inr.inr.inl =>
    simp only [Option.map_eq_some', Prod.mk.injEq] at hres
    obtain ⟨⟨body, pc, calls⟩, hsd, rfl, rfl⟩ := hres
    obtain ⟨r, hr, hcalls, hpc⟩ := sendData_calls Z cfg fuel _ _ _ _ _ hsd
    have hiff := chunkLoop_pclose _ r hr
    have h1 := (dataHead_ne_closeHead cfg.channel (fileNameOf st.req)
      (st.req.metareq && scanHeaders ev.headers)).1
    have h2 := (response500_not_mem_data cfg.channel (fileNameOf st.req)
      (st.req.metareq && scanHeaders ev.headers)).1
    simp only [CycleOut.mk.injEq, h1, false_and, false_or, true_and, hr, Option.some.injEq,
      exists_eq_left', h2]
    rw [← hpc]
    refine ⟨hiff, ?_, ?_⟩
    · intro hp
      by_contra hn
      have := hiff.mpr hn
      rw [hp] at this
      cases this
    · intro hm
      cases hb : r.pclose
      · exact absurd hm (hiff.mp hb)
      · rfl
  case inr.inr.inr.inr.inr.inr.inr.inr.inr.inr.inl =>
    simp only [Option.map_eq_some', Prod.mk.injEq] at hres
    obtain ⟨⟨body, pc, calls⟩, hsd, rfl, rfl⟩ := hres
    obtain ⟨r, hr, hcalls, hpc⟩ := sendData_calls Z cfg fuel _ _ _ _ _ hsd
    have hiff := chunkLoop_pclose _ r hr
    have h1 := (dataHead_ne_closeHead "" ""
      (st.req.metareq && scanHeaders ev.headers)).2
    have h2 := (response500_not_mem_data "" ""
      (st.req.metareq && scanHeaders ev.headers)).2.1
    simp only [CycleOut.mk.injEq, h1, false_and, false_or, true_and, hr, Option.some.injEq,
      exists_eq_left', h2]
    rw [← hpc]
    refine ⟨hiff, ?_, ?_⟩
    · intro hp
      by_contra hn
      have := hiff.mpr hn
      rw [hp] at this
      cases this
    · intro hm
      cases hb : r.pclose
      · exact absurd hm (hiff.mp hb)
      · rfl
  all_goals
    simp only [Option.some.injEq, Prod.mk.injEq] at hres
    obtain ⟨rfl, rfl⟩ := hres
    simp [failureOut, closeHead]

/-- The loop never looks at an event twice nor out of order: what is left unread
is a suffix of the input, and a loop entered with `pclose` unset and an event to
read consumes that event. -/
theorem run_unread (Z : ZFilter) (cfg : Config) (fuel : Nat) (evs : List Event) :
    ∀ (st : Session) (r : RunOut), Run Z cfg fuel st evs = some r →
      List.IsSuffix r.unread evs
      ∧ (st.pclose = false → ∀ ev rest, evs = ev :: rest → List.IsSuffix r.unread rest) := by
  induction evs with
  | nil =>
    intro st r h
    simp only [Run, Option.some.injEq] at h
    subst h
    exact ⟨List.suffix_refl _, fun _ ev rest he => (by cases he)⟩
  | cons ev rest ih =>
    intro st r h
    rw [Run] at h
    have key : (st.pclose = false → List.IsSuffix r.unread rest)
        ∧ (st.pclose = true → r.unread = ev :: rest) := by
      split_ifs at h with hp ht
      · simp only [Option.some.injEq] at h
        subst h
        exact ⟨fun hf => (by rw [hp] at hf; cases hf), fun _ => rfl⟩
      · simp only [Option.some.injEq] at h
        subst h
        exact ⟨fun _ => List.suffix_refl _, fun ht => absurd ht hp⟩
      · refine ⟨fun _ => ?_, fun ht => absurd ht hp⟩
        cases hparsed : ev.parsed with
        | none =>
          simp only [hparsed, Option.some.injEq] at h
          subst h
          exact List.suffix_refl _
        | some req =>
          simp only [hparsed] at h
          cases hres : respond Z cfg fuel ev { st with req := req } with
          | none => simp [hres] at h
          | some p =>
            obtain ⟨st1, out⟩ := p
            simp only [hres, Option.map_eq_some'] at h
            obtain ⟨r1, hr1, rfl⟩ := h
            exact (ih st1 r1 hr1).1
    refine ⟨?_, fun hp ev1 rest1 he => ?_⟩
    · rcases bool_cases st.pclose with hp | hp
      · exact (key.1 hp).trans (List.suffix_cons _ _)
      · rw [key.2 hp]
    · cases he
      exact key.1 hp

/-- C8. In the session loop entered with `pclose` unset: on a communication
time-out, and when no request line can be read or parsed, the loop is left at
once, nothing is written and nothing more is read. After an iteration that
answered a request, `pclose` is unset exactly when the iteration was a successful
channel close or a data response in which no `GenerateChunk` call failed, and
set exactly when a failure response was sent or a `GenerateChunk` call failed
after the data head; when unset the loop goes on and reads the next event, when
set the loop is left with exactly that one response written and everything after
it unread. -/
theorem C8_connection_lifetime (Z : ZFilter) (cfg : Config) (fuel : Nat) (st : Session)
    (ev : Event) (rest : List Event) (hp : st.pclose = false) :
    ((cfg.com_time_out > 0 ∧ ev.wait = 0) →
      Run Z cfg fuel st (ev :: rest) = some ⟨st, [], rest⟩)
    ∧ (¬ (cfg.com_time_out > 0 ∧ ev.wait = 0) → ev.parsed = none →
      Run Z cfg fuel st (ev :: rest) = some ⟨st, [], rest⟩)
    ∧ (∀ req st1 out, ¬ (cfg.com_time_out > 0 ∧ ev.wait = 0) → ev.parsed = some req →
        respond Z cfg fuel ev { st with req := req } = some (st1, out) →
        (st1.pclose = false ↔
          (out = ⟨closeHead, []⟩
            ∨ (st1.send_data = true
                ∧ ∃ r, chunkLoop ev.chunks = some r
                    ∧ Call.generateChunk .fail ∉ r.calls)))
        ∧ (st1.pclose = true ↔
          (Out.response 500 ∈ out.head
            ∨ (st1.send_data = true
                ∧ ∃ r, chunkLoop ev.chunks = some r
                    ∧ Call.generateChunk .fail ∈ r.calls)))
        ∧ (st1.pclose = false →
            Run Z cfg fuel st (ev :: rest)
              = (Run Z cfg fuel st1 rest).map (fun r => ⟨r.st, out :: r.outs, r.unread⟩)
            ∧ ∀ ev2 rest2 r, rest = ev2 :: rest2 →
                Run Z cfg fuel st (ev :: rest) = some r → List.IsSuffix r.unread rest2)
        ∧ (st1.pclose = true →
            Run Z cfg fuel st (ev :: rest) = some ⟨st1, [out], rest⟩)) := by
  refine ⟨?_, ?_, ?_⟩
  · intro ht
    rw [Run, if_neg (by simp [hp]), if_pos ht]
  · intro ht hparsed
    rw [Run, if_neg (by simp [hp]), if_neg ht]
    simp only [hparsed]
  · intro req st1 out ht hparsed hres
    have hstep := run_step Z cfg fuel st st1 ev rest req out hp ht hparsed hres
    obtain ⟨h1, h2⟩ := respond_pclose Z cfg fuel ev { st with req := req } st1 out hres
    refine ⟨h1, h2, fun hp1 => ⟨hstep, ?_⟩, fun hp1 => ?_⟩
    · intro ev2 rest2 r he hr
      rw [hstep, Option.map_eq_some'] at hr
      obtain ⟨r1, hr1, rfl⟩ := hr
      exact (run_unread Z cfg fuel rest st1 r1 hr1).2 hp1 ev2 rest2 he
    · rw [hstep, run_closed Z cfg fuel st1 rest hp1]
      rfl

/-- The statement C8 at a concrete input: a request without channel directive,
followed by a channel-new request that is never read. -/
theorem C8_connection_lifetime_witness :
    Run ZFilter.store Config.sample 0 (Session.init Request.blank)
        [Event.of Request.blank [] true true [],
         Event.of Request.newChannel [] true true [.ok [1] true]]
      = some ⟨{ pclose := true, is_opened := false, send_data := false,
                req := Request.blank, calls := [] },
              [⟨failureHead 45, bytesOf "Invalid request (channel parameter not found)"⟩],
              [Event.of Request.newChannel [] true true [.ok [1] true]]⟩ :=
  (C8_connection_lifetime ZFilter.store Config.sample 0 (Session.init Request.blank)
      (Event.of Request.blank [] true true [])
      [Event.of Request.newChannel [] true true [.ok [1] true]] rfl).2.2
    Request.blank
    { pclose := true, is_opened := false, send_data := false, req := Request.blank,
      calls := [] }
    ⟨failureHead 45, bytesOf "Invalid request (channel parameter not found)"⟩
    (by decide) rfl (by decide) |>.2.2.2 rfl

/-! ## C9: a response cut short by a generation failure -/

end Esajpip
